import Mathlib

/-!
# dm-master scaler and resource controls of tidb-operator

A shallow embedding of `pkg/manager/member/dm_master_scaler.go`, of the
StatefulSet and Job controls of `pkg/controller`, and of the helpers
`GetPodStatus` and `pdFailover` of `tests/failover.go`.

* Go pointers are modelled by values: `oldSet` and `newSet` are distinct
  objects, `*Spec.Replicas` is never the nil pointer.
* A Go `error` result is an `Option GoError` (`none` is `nil`); a pair
  `(value, error)` is an `Except GoError value`.
* Collaborators (dm-master API client, PVC lister, PVC control, deferred
  PVC cleanup) are functions over an abstract world state `W`, threaded
  through the call in program order.  Every collaborator invocation is
  appended to a call log so that statements about which calls happen, in
  which order and how often can be made.
* `klog` output is not modelled.
-/

namespace TidbOperator

/-! ## Data model -/

/-- Go `error` values that reach the scaler and the controls: ordinary
errors (`fmt.Errorf`, client errors), the requeue error built by
`controller.RequeueErrorf`, and the Kubernetes API status errors
(`*apierrors.StatusError`) with their `Reason`. -/
inductive GoError where
  | plain (msg : String)
  | requeue (msg : String)
  | status (reason : String) (msg : String)
  deriving DecidableEq, Repr

/-- Text of an error, `err.Error()`. -/
def GoError.Error : GoError → String
  | .plain m => m
  | .requeue m => m
  | .status _ m => m

/-- Mirror of `controller.IsRequeueError`. -/
def IsRequeueError : Option GoError → Bool
  | some (.requeue _) => true
  | _ => false

/-- The part of `apps.StatefulSet` the scaler reads and writes: object name
and namespace, `*Spec.Replicas`, and the delete-slot set carried by the
object (an order-independent set of ordinals). -/
structure StatefulSet where
  Namespace : String
  Name : String
  Replicas : Int
  DeleteSlots : Finset Int
  deriving DecidableEq

/-- Entry of `dc.Status.Master.Leader` / `Members`. -/
structure MasterMember where
  Name : String
  deriving DecidableEq, Repr

/-- Mirror of `dc.Status.Master`. -/
structure MasterStatus where
  Synced : Bool
  Leader : MasterMember
  deriving DecidableEq, Repr

/-- Mirror of `dc.Status`. -/
structure DMClusterStatus where
  Master : MasterStatus
  deriving DecidableEq, Repr

/-- The part of `v1alpha1.DMCluster` the scaler reads. -/
structure DMCluster where
  Namespace : String
  Name : String
  Status : DMClusterStatus
  deriving DecidableEq, Repr

/-- A `metav1.Object`: either a `*v1alpha1.DMCluster` or any other object,
distinguished by the type assertion `meta.(*v1alpha1.DMCluster)`. -/
inductive MetaObject where
  | dmCluster (dc : DMCluster)
  | other (Namespace Name : String)
  deriving DecidableEq, Repr

/-- Element of the slice returned by `GetMasters`. -/
structure MastersInfo where
  Name : String
  MemberID : String
  Alive : Bool
  deriving DecidableEq, Repr

/-- A `corev1.PersistentVolumeClaim`: name, namespace and the annotation
map, which may be the nil map (`none`). A map is a key/value list with
unique keys. -/
structure PersistentVolumeClaim where
  Namespace : String
  Name : String
  Annotations : Option (List (String × String))
  deriving DecidableEq, Repr

/-- Map read `m[k]`. -/
def mapGet (m : List (String × String)) (k : String) : Option String :=
  (m.find? (fun kv => kv.1 == k)).map (fun kv => kv.2)

/-- Map write `m[k] = v`: the binding of `k` is replaced, or added when
absent; no other key is touched. -/
def mapSet (m : List (String × String)) (k v : String) : List (String × String) :=
  (k, v) :: m.filter (fun kv => !(kv.1 == k))

/-- The result of `scaleOne`: `(scaling, ordinal, replicas, deleteSlots)`. -/
structure ScaleStep where
  scaling : Int
  ordinal : Int
  replicas : Int
  deleteSlots : Finset Int
  deriving DecidableEq

/-- Names the scaler uses whose declarations are outside the available
sources, taken as parameters: the pure helpers `scaleOne`, `ordinalPodName`
and `ordinalPVCName` of package `member`, and the string constants
`v1alpha1.DMMasterMemberType` and `label.AnnPVCDeferDeleting`. -/
structure Helpers where
  scaleOne : StatefulSet → StatefulSet → ScaleStep
  ordinalPodName : String → String → Int → String
  ordinalPVCName : String → String → Int → String
  DMMasterMemberType : String
  AnnPVCDeferDeleting : String

/-- One invocation of a collaborator. -/
inductive Call where
  | EvictLeader (member : String)
  | DeleteMaster (member : String)
  | GetMasters
  | GetPVC (Namespace Name : String)
  | UpdatePVC (pvc : PersistentVolumeClaim)
  | deleteDeferDeletingPVC (memberType : String) (ordinal : Int)
  deriving DecidableEq, Repr

/-- The collaborators reached through `s.deps` and the embedded
`generalScaler`, as functions over the world state `W`:
`GetMasterPeerClient(..., dc, member).EvictLeader()`,
`GetMasterClient(..., dc).DeleteMaster(name)` and `.GetMasters()`,
`PVCLister.PersistentVolumeClaims(ns).Get(name)`, `PVCControl.UpdatePVC`,
`deleteDeferDeletingPVC(dc, memberType, ordinal)` and the clock
`time.Now().Format(time.RFC3339)`. -/
structure Deps (W : Type) where
  EvictLeader : DMCluster → String → W → Option GoError × W
  DeleteMaster : DMCluster → String → W → Option GoError × W
  GetMasters : DMCluster → W → Except GoError (List MastersInfo) × W
  GetPVC : String → String → W → Except GoError PersistentVolumeClaim × W
  UpdatePVC : DMCluster → PersistentVolumeClaim → W → Option GoError × W
  deleteDeferDeletingPVC : DMCluster → String → Int → W → Option GoError × W
  now : W → String

/-- What a call of the scaler leaves behind: the returned error, `newSet`
as it is after the call, the world state and the collaborator calls made,
oldest first. -/
structure Run (W : Type) where
  err : Option GoError
  newSet : StatefulSet
  world : W
  calls : List Call

/-- Modelled from the spec: `resetReplicas(newSet, oldSet)`, whose body is
outside the available sources. "The desired replica count proposed by the
caller is reset to the observed value"; nothing else of `newSet` changes. -/
def resetReplicas (newSet oldSet : StatefulSet) : StatefulSet :=
  { newSet with Replicas := oldSet.Replicas }

/-- Modelled from the spec: `setReplicasAndDeleteSlots(newSet, replicas,
deleteSlots)`, whose body is outside the available sources. The commit:
"`desiredTopologyObject`'s replica count and delete-slot encoding are
mutated to exactly the committed `ScaleStep`". A nil set is the empty set. -/
def setReplicasAndDeleteSlots (newSet : StatefulSet) (replicas : Int)
    (deleteSlots : Finset Int) : StatefulSet :=
  { newSet with Replicas := replicas, DeleteSlots := deleteSlots }

/-! ## The scaler -/

/-- Mirror of `masterScaler.ScaleOut`. -/
def ScaleOut {W : Type} (h : Helpers) (d : Deps W) (meta : MetaObject)
    (oldSet newSet : StatefulSet) (w : W) : Run W :=
  match meta with
  | .other _ _ => ⟨none, newSet, w, []⟩
  | .dmCluster dc =>
    let step := h.scaleOne oldSet newSet
    let newSet := resetReplicas newSet oldSet
    let ns := dc.Namespace
    let dcName := dc.Name
    match d.deleteDeferDeletingPVC dc h.DMMasterMemberType step.ordinal w with
    | (some err, w1) =>
      ⟨some err, newSet, w1, [.deleteDeferDeletingPVC h.DMMasterMemberType step.ordinal]⟩
    | (none, w1) =>
      if !dc.Status.Master.Synced then
        ⟨some (.plain ("DMCluster: " ++ ns ++ "/" ++ dcName ++
            "\x27s dm-master status sync failed, can\x27t scale out now")),
          newSet, w1, [.deleteDeferDeletingPVC h.DMMasterMemberType step.ordinal]⟩
      else
        ⟨none, setReplicasAndDeleteSlots newSet step.replicas step.deleteSlots, w1,
          [.deleteDeferDeletingPVC h.DMMasterMemberType step.ordinal]⟩

/-- The loop of `ScaleIn` over `mastersInfo`: is a member of that name listed. -/
def existed (mastersInfo : List MastersInfo) (memberName : String) : Bool :=
  mastersInfo.any (fun member => member.Name == memberName)

/-- The annotation write of `ScaleIn`: a nil map becomes an empty map, then
`pvc.Annotations[label.AnnPVCDeferDeleting] = now`. -/
def markDeferDeleting (key : String) (pvc : PersistentVolumeClaim) (now : String) :
    PersistentVolumeClaim :=
  { pvc with Annotations := some (mapSet (pvc.Annotations.getD []) key now) }

/-- Mirror of `masterScaler.ScaleIn`. -/
def ScaleIn {W : Type} (h : Helpers) (d : Deps W) (meta : MetaObject)
    (oldSet newSet : StatefulSet) (w : W) : Run W :=
  match meta with
  | .other _ _ => ⟨none, newSet, w, []⟩
  | .dmCluster dc =>
    let ns := dc.Namespace
    let dcName := dc.Name
    let step := h.scaleOne oldSet newSet
    let newSet := resetReplicas newSet oldSet
    let memberName := h.ordinalPodName h.DMMasterMemberType dcName step.ordinal
    let setName := oldSet.Name
    if !dc.Status.Master.Synced then
      ⟨some (.plain ("DMCluster: " ++ ns ++ "/" ++ dcName ++
          "\x27s dm-master status sync failed, can\x27t scale in now")), newSet, w, []⟩
    else if step.ordinal > 0 ∧ dc.Status.Master.Leader.Name = memberName then
      match d.EvictLeader dc memberName w with
      | (some err, w1) => ⟨some err, newSet, w1, [.EvictLeader memberName]⟩
      | (none, w1) =>
        ⟨some (.requeue ("dc [" ++ ns ++ "/" ++ dcName ++ "]\x27s dm-master pod[" ++ ns ++
            "/" ++ memberName ++ "] is transferring dm-master leader, can\x27t scale-in now")),
          newSet, w1, [.EvictLeader memberName]⟩
    else
      match d.DeleteMaster dc memberName w with
      | (some err, w1) => ⟨some err, newSet, w1, [.DeleteMaster memberName]⟩
      | (none, w1) =>
        match d.GetMasters dc w1 with
        | (.error err, w2) => ⟨some err, newSet, w2, [.DeleteMaster memberName, .GetMasters]⟩
        | (.ok mastersInfo, w2) =>
          if existed mastersInfo memberName then
            ⟨some (.plain ("dm-master scale in: dm-master " ++ memberName ++
                " still exist after being deleted")),
              newSet, w2, [.DeleteMaster memberName, .GetMasters]⟩
          else
            let pvcName := h.ordinalPVCName h.DMMasterMemberType setName step.ordinal
            match d.GetPVC ns pvcName w2 with
            | (.error err, w3) =>
              ⟨some (.plain ("dm-master.ScaleIn: failed to get pvc " ++ pvcName ++
                  " for cluster " ++ ns ++ "/" ++ dcName ++ ", error: " ++ err.Error)),
                newSet, w3, [.DeleteMaster memberName, .GetMasters, .GetPVC ns pvcName]⟩
            | (.ok pvc, w3) =>
              let pvc := markDeferDeleting h.AnnPVCDeferDeleting pvc (d.now w3)
              match d.UpdatePVC dc pvc w3 with
              | (some err, w4) =>
                ⟨some err, newSet, w4,
                  [.DeleteMaster memberName, .GetMasters, .GetPVC ns pvcName, .UpdatePVC pvc]⟩
              | (none, w4) =>
                ⟨none, setReplicasAndDeleteSlots newSet step.replicas step.deleteSlots, w4,
                  [.DeleteMaster memberName, .GetMasters, .GetPVC ns pvcName, .UpdatePVC pvc]⟩

/-- Mirror of `masterScaler.Scale`. -/
def Scale {W : Type} (h : Helpers) (d : Deps W) (meta : MetaObject)
    (oldSet newSet : StatefulSet) (w : W) : Run W :=
  let scaling := (h.scaleOne oldSet newSet).scaling
  if scaling > 0 then
    ScaleOut h d meta oldSet newSet w
  else if scaling < 0 then
    ScaleIn h d meta oldSet newSet w
  else
    ⟨none, newSet, w, []⟩

/-! ## The helpers as the specification describes them -/

/-- Modelled from the spec: the live ordinals of a topology, whose
computation is outside the available sources. "Ordinals are dense
`0..replicas-1` minus `deleteSlots`". -/
def liveOrdinals (set : StatefulSet) : Finset Int :=
  Finset.Ico 0 set.Replicas \ set.DeleteSlots

/-- Modelled from the spec: `scaleOne(actual, desired)`, the ScaleStep
Calculator, whose body is outside the available sources.
No-op: "if desired == observed, returns direction none"; the resulting
topology is the observed one.
Scale-out: "if `deleteSlots` is non-empty, the smallest slot ordinal is
filled (removed from `deleteSlots`, replicas unchanged or incremented as
needed to cover it) before any new tail ordinal is allocated; otherwise the
new ordinal is `observed.replicas`" and replicas grows by one.
Scale-in: "the highest currently-live ordinal is selected for removal and
added to `deleteSlots`", replicas is decremented, and the resulting
topology obeys the invariant of the data model, "`deleteSlots` values are
always `< replicas` at rest, and never include ordinal 0": of the old slots
and the removed ordinal, those above 0 and below the new replica count are
kept. A removal of the tail ordinal thus leaves no slot behind, as in
Scenario B, "replicas=2, deleteSlots={} (tail removal)"; the other
alternative of that scenario, a slot 2 beside replica count 2, cannot hold
together with the invariant and is not modelled.
The direction is the sign tested by `Scale`: 1 out, -1 in, 0 none. The spec
names no ordinal for a no-op or for a scale-in of a topology without a live
ordinal; the model returns -1 there. -/
def scaleOne (actual desired : StatefulSet) : ScaleStep :=
  if desired.Replicas > actual.Replicas then
    if hs : actual.DeleteSlots.Nonempty then
      let ordinal := actual.DeleteSlots.min' hs
      { scaling := 1, ordinal := ordinal,
        replicas := if ordinal < actual.Replicas then actual.Replicas else actual.Replicas + 1,
        deleteSlots := actual.DeleteSlots.erase ordinal }
    else
      { scaling := 1, ordinal := actual.Replicas, replicas := actual.Replicas + 1,
        deleteSlots := actual.DeleteSlots }
  else if desired.Replicas < actual.Replicas then
    let ordinal := if hl : (liveOrdinals actual).Nonempty then (liveOrdinals actual).max' hl else -1
    { scaling := -1, ordinal := ordinal, replicas := actual.Replicas - 1,
      deleteSlots := (insert ordinal actual.DeleteSlots).filter
        (fun slot => 0 < slot ∧ slot < actual.Replicas - 1) }
  else
    { scaling := 0, ordinal := -1, replicas := actual.Replicas,
      deleteSlots := actual.DeleteSlots }

/-- Modelled from the spec: `ordinalPodName(memberType, name, ordinal)`,
whose body is outside the available sources. The member "name is
deterministically derived from role + cluster identity + ordinal", written
`cluster-role-2` in Scenario A. -/
def ordinalPodName (memberType dcName : String) (ordinal : Int) : String :=
  dcName ++ "-" ++ memberType ++ "-" ++ toString ordinal

/-- Modelled from the spec: `ordinalPVCName(memberType, setName, ordinal)`,
whose body is outside the available sources. The spec fixes only that the
claim name is a function of the role and the ordinal
(`storageClaimNameOf(ordinal)`); the rendering below is one such function. -/
def ordinalPVCName (memberType setName : String) (ordinal : Int) : String :=
  memberType ++ "-" ++ setName ++ "-" ++ toString ordinal

/-- The helpers as the specification describes them. -/
def specHelpers : Helpers where
  scaleOne := scaleOne
  ordinalPodName := ordinalPodName
  ordinalPVCName := ordinalPVCName
  DMMasterMemberType := "dm-master"
  AnnPVCDeferDeleting := "tidb.pingcap.com/pvc-defer-deleting"

/-! ## An in-memory world, used to run the scaler on concrete inputs -/

/-- State of the in-memory collaborators: the members registered with
dm-master, the storage claims, and the clock reading. -/
structure MemWorld where
  members : List MastersInfo
  pvcs : List PersistentVolumeClaim
  clock : String
  deriving DecidableEq, Repr

/-- In-memory collaborators. `DeleteMaster` unregisters the member,
`GetMasters` lists the registered members, the PVC lister looks a claim up
by namespace and name, `UpdatePVC` stores the claim, and
`deleteDeferDeletingPVC` deletes the claims of the ordinal that carry the
deferred-deletion annotation. No call fails except the lookup of a claim
that does not exist. -/
def memDeps : Deps MemWorld where
  EvictLeader := fun _ _ w => (none, w)
  DeleteMaster := fun _ name w =>
    (none, { w with members := w.members.filter (fun m => !(m.Name == name)) })
  GetMasters := fun _ w => (.ok w.members, w)
  GetPVC := fun ns name w =>
    match w.pvcs.find? (fun p => p.Namespace == ns && p.Name == name) with
    | some pvc => (.ok pvc, w)
    | none => (.error (.plain ("persistentvolumeclaim " ++ name ++ " not found")), w)
  UpdatePVC := fun _ pvc w =>
    let others := w.pvcs.filter (fun p => !(p.Namespace == pvc.Namespace && p.Name == pvc.Name))
    (none, { w with pvcs := pvc :: others })
  deleteDeferDeletingPVC := fun dc memberType ordinal w =>
    (none, { w with pvcs := w.pvcs.filter (fun p =>
      !(p.Namespace == dc.Namespace
        && p.Name == ordinalPVCName memberType (dc.Name ++ "-" ++ memberType) ordinal
        && (mapGet (p.Annotations.getD []) specHelpers.AnnPVCDeferDeleting).isSome)) })
  now := fun w => w.clock

/-- A DMCluster `ns/dc` with the given sync flag and leader name. -/
def demoCluster (synced : Bool) (leader : String) : DMCluster :=
  { Namespace := "ns", Name := "dc",
    Status := { Master := { Synced := synced, Leader := { Name := leader } } } }

/-- The StatefulSet `ns/dc-dm-master` with the given topology. -/
def demoSet (replicas : Int) (deleteSlots : Finset Int) : StatefulSet :=
  { Namespace := "ns", Name := "dc-dm-master", Replicas := replicas, DeleteSlots := deleteSlots }

/-- A world with three registered members and one claim per member; the
claim of ordinal 3 is left over from an earlier scale-in and carries the
deferred-deletion annotation. -/
def demoWorld : MemWorld :=
  { members := [⟨"dc-dm-master-0", "a", true⟩, ⟨"dc-dm-master-1", "b", true⟩,
      ⟨"dc-dm-master-2", "c", true⟩],
    pvcs := [⟨"ns", "dm-master-dc-dm-master-0", none⟩, ⟨"ns", "dm-master-dc-dm-master-1", none⟩,
      ⟨"ns", "dm-master-dc-dm-master-2", some [("owner", "dc")]⟩,
      ⟨"ns", "dm-master-dc-dm-master-3",
        some [("tidb.pingcap.com/pvc-defer-deleting", "2020-01-01T00:00:00Z")]⟩],
    clock := "2020-06-01T12:00:00Z" }

/-- The member name `ScaleIn` derives for the ordinal of the step:
`ordinalPodName(v1alpha1.DMMasterMemberType, dcName, ordinal)`. -/
def targetMember (h : Helpers) (dc : DMCluster) (oldSet newSet : StatefulSet) : String :=
  h.ordinalPodName h.DMMasterMemberType dc.Name (h.scaleOne oldSet newSet).ordinal

/-- Failures injected into the in-memory collaborators: an error to return
from a call instead of performing it, and `staleMembers`, under which
`DeleteMaster` reports success while the member stays registered (an
administrative API that answers before the removal is visible). -/
structure Faults where
  EvictLeader : Option GoError
  DeleteMaster : Option GoError
  GetMasters : Option GoError
  UpdatePVC : Option GoError
  deleteDeferDeletingPVC : Option GoError
  staleMembers : Bool
  deriving DecidableEq, Repr

/-- No failure injected. -/
def noFaults : Faults :=
  { EvictLeader := none, DeleteMaster := none, GetMasters := none, UpdatePVC := none,
    deleteDeferDeletingPVC := none, staleMembers := false }

/-- The in-memory collaborators with failures injected. -/
def faultyDeps (f : Faults) : Deps MemWorld where
  EvictLeader := fun dc member w =>
    match f.EvictLeader with
    | some err => (some err, w)
    | none => memDeps.EvictLeader dc member w
  DeleteMaster := fun dc name w =>
    match f.DeleteMaster with
    | some err => (some err, w)
    | none => if f.staleMembers then (none, w) else memDeps.DeleteMaster dc name w
  GetMasters := fun dc w =>
    match f.GetMasters with
    | some err => (.error err, w)
    | none => memDeps.GetMasters dc w
  GetPVC := memDeps.GetPVC
  UpdatePVC := fun dc pvc w =>
    match f.UpdatePVC with
    | some err => (some err, w)
    | none => memDeps.UpdatePVC dc pvc w
  deleteDeferDeletingPVC := fun dc memberType ordinal w =>
    match f.deleteDeferDeletingPVC with
    | some err => (some err, w)
    | none => memDeps.deleteDeferDeletingPVC dc memberType ordinal w
  now := memDeps.now

/-- The claim name `ScaleIn` derives for the ordinal of the step:
`ordinalPVCName(v1alpha1.DMMasterMemberType, setName, ordinal)`. -/
def targetPVCName (h : Helpers) (oldSet newSet : StatefulSet) : String :=
  h.ordinalPVCName h.DMMasterMemberType oldSet.Name (h.scaleOne oldSet newSet).ordinal

/-! ## The StatefulSet and Job controls (`pkg/controller`) -/

namespace controller

/-- Mirror of `apierrors.IsAlreadyExists`. -/
def IsAlreadyExists : Option GoError → Bool
  | some (.status reason _) => reason == "AlreadyExists"
  | _ => false

/-- Mirror of `apierrors.IsConflict`. -/
def IsConflict : GoError → Bool
  | .status reason _ => reason == "Conflict"
  | _ => false

/-- The part of `metav1.ObjectMeta` the controls read. -/
structure ObjectMeta where
  Namespace : String
  Name : String
  ResourceVersion : String
  Labels : List (String × String)
  deriving DecidableEq, Repr

/-- Sections of `apps.StatefulSetSpec`; `Template` stands for the pod template. -/
structure StatefulSetSpec where
  Replicas : Int
  ServiceName : String
  Template : String
  deriving DecidableEq, Repr

/-- Fields of `apps.StatefulSetStatus`. -/
structure StatefulSetStatus where
  Replicas : Int
  ReadyReplicas : Int
  deriving DecidableEq, Repr

/-- An `apps.StatefulSet` as the controls see it: metadata, spec, status. -/
structure StatefulSet where
  ObjectMeta : ObjectMeta
  Spec : StatefulSetSpec
  Status : StatefulSetStatus
  deriving DecidableEq, Repr

/-- A `batchv1.Job`: its metadata. -/
structure Job where
  ObjectMeta : ObjectMeta
  deriving DecidableEq, Repr

/-- A `runtime.Object` handed in as the owning object: its Go type name
(`%T`), its `GetObjectKind().GroupVersionKind().Kind`, and its metadata when
the type assertion to `metav1.Object` succeeds. -/
structure RuntimeObject where
  TypeName : String
  Kind : String
  meta : Option ObjectMeta
  deriving DecidableEq, Repr

/-- One `recorder.Event(object, eventtype, reason, message)`. -/
structure Event where
  object : RuntimeObject
  eventtype : String
  reason : String
  message : String
  deriving DecidableEq, Repr

/-- One call of the Kubernetes client or of the StatefulSet lister. -/
inductive APICall where
  | CreateStatefulSet (ns : String) (set : StatefulSet)
  | UpdateStatefulSet (ns : String) (set : StatefulSet)
  | DeleteStatefulSet (ns name : String)
  | GetStatefulSet (ns name : String)
  | CreateJob (ns : String) (job : Job)
  | DeleteJob (ns name : String) (propagationPolicy : String)
  deriving DecidableEq, Repr

/-- The clients behind `c.kubeCli` and `c.setLister`, as functions over the
world state `W`. `UpdateStatefulSet` returns both results of the Go call,
the object and the error. -/
structure KubeCli (W : Type) where
  CreateStatefulSet : String → StatefulSet → W → Option GoError × W
  UpdateStatefulSet : String → StatefulSet → W → (Option StatefulSet × Option GoError) × W
  DeleteStatefulSet : String → String → W → Option GoError × W
  GetStatefulSet : String → String → W → Except GoError StatefulSet × W
  CreateJob : String → Job → W → Option GoError × W
  DeleteJob : String → String → String → W → Option GoError × W

/-- What a call of a control leaves behind: the returned object (only
`UpdateStatefulSet` returns one), the returned error, the world, the client
calls made and the events recorded, oldest first. -/
structure Result (W : Type) where
  updated : Option StatefulSet
  err : Option GoError
  world : W
  calls : List APICall
  events : List Event

/-- The rule of `strings.Title` for word starts, on ASCII: letters, digits
and the underscore do not separate words, every other ASCII character does.
Non-ASCII characters are taken as non-separators. -/
def isSeparator (r : Char) : Bool :=
  if r.val ≤ 0x7F then !(r.isAlphanum || r == '_') else false

/-- Mirror of `strings.Title` on ASCII text: the first letter of every word
is upper-cased. -/
def Title (s : String) : String :=
  String.mk ((s.data.foldl (fun (acc : Char × List Char) r =>
    if isSeparator acc.1 then (r, r.toUpper :: acc.2) else (r, r :: acc.2)) (' ', [])).2.reverse)

/-- Mirror of `strings.ToLower` on ASCII text. -/
def ToLower (s : String) : String :=
  s.map Char.toLower

/-- The constants `corev1.EventTypeNormal` and `corev1.EventTypeWarning`. -/
def EventTypeNormal : String := "Normal"

/-- See `EventTypeNormal`. -/
def EventTypeWarning : String := "Warning"

/-- Mirror of `realStatefulSetControl.recordStatefulSetEvent`: the event it
hands to the recorder. -/
def recordStatefulSetEvent (verb kind name : String) (object : RuntimeObject)
    (set : StatefulSet) (err : Option GoError) : Event :=
  let setName := set.ObjectMeta.Name
  match err with
  | none =>
    let reason := "Successful" ++ Title verb
    let message := ToLower verb ++ " StatefulSet " ++ setName ++ " in " ++ kind ++ " " ++ name ++
      " successful"
    ⟨object, EventTypeNormal, reason, message⟩
  | some e =>
    let reason := "Failed" ++ Title verb
    let message := ToLower verb ++ " StatefulSet " ++ setName ++ " in " ++ kind ++ " " ++ name ++
      " failed error: " ++ e.Error
    ⟨object, EventTypeWarning, reason, message⟩

/-- The error returned when the owning object is not a `metav1.Object`. -/
def notMetaObject (controller : RuntimeObject) : GoError :=
  .plain (controller.TypeName ++ " is not a metav1.Object, cannot call setControllerReference")

/-- Mirror of `realStatefulSetControl.CreateStatefulSet`. -/
def CreateStatefulSet {W : Type} (k : KubeCli W) (controller : RuntimeObject)
    (set : StatefulSet) (w : W) : Result W :=
  match controller.meta with
  | none => ⟨none, some (notMetaObject controller), w, [], []⟩
  | some controllerMo =>
    let kind := controller.Kind
    let name := controllerMo.Name
    let ns := controllerMo.Namespace
    match k.CreateStatefulSet ns set w with
    | (err, w1) =>
      if IsAlreadyExists err then
        ⟨none, err, w1, [.CreateStatefulSet ns set], []⟩
      else
        ⟨none, err, w1, [.CreateStatefulSet ns set],
          [recordStatefulSetEvent "create" kind name controller set err]⟩

/-- The variables the closure of `UpdateStatefulSet` captures and assigns:
`set`, `updatedSS`, together with the world and the call log. -/
structure UpdateState (W : Type) where
  set : StatefulSet
  updatedSS : Option StatefulSet
  world : W
  calls : List APICall

/-- The closure handed to `retry.RetryOnConflict` by `UpdateStatefulSet`:
one update attempt. After a failed attempt for which the lister returns the
object, `set` becomes a copy of the lister's object with `Spec` assigned from
`setSpec`; if the lister fails too, `set` is kept. -/
def updateAttempt {W : Type} (k : KubeCli W) (ns setName : String) (setSpec : StatefulSetSpec)
    (st : UpdateState W) : Option GoError × UpdateState W :=
  match k.UpdateStatefulSet ns st.set st.world with
  | ((updatedSS, none), w1) =>
    (none, { st with updatedSS := updatedSS, world := w1,
                     calls := st.calls ++ [.UpdateStatefulSet ns st.set] })
  | ((updatedSS, some updateErr), w1) =>
    match k.GetStatefulSet ns setName w1 with
    | (.ok updated, w2) =>
      (some updateErr,
        { set := { updated with Spec := setSpec }, updatedSS := updatedSS, world := w2,
          calls := st.calls ++ [.UpdateStatefulSet ns st.set, .GetStatefulSet ns setName] })
    | (.error _, w2) =>
      (some updateErr,
        { st with updatedSS := updatedSS, world := w2,
                  calls := st.calls ++ [.UpdateStatefulSet ns st.set, .GetStatefulSet ns setName] })

/-- Mirror of `retry.OnError` of client-go (a library, not part of this
repository) without the sleeping: `fn` is run at most `steps` times, and run
again only after an error that `retriable` accepts; the result is nil after
a success, the error of a non-retriable failure, and the last retriable
error when the steps are used up. -/
def OnError {S : Type} (retriable : GoError → Bool) (fn : S → Option GoError × S) :
    Nat → S → Option GoError → Option GoError × S
  | 0, s, lastErr => (lastErr, s)
  | steps + 1, s, _ =>
    match fn s with
    | (none, s1) => (none, s1)
    | (some err, s1) =>
      if retriable err then OnError retriable fn steps s1 (some err) else (some err, s1)

/-- The number of attempts of `retry.DefaultBackoff` (`Steps: 4`). -/
def DefaultBackoffSteps : Nat := 4

/-- Mirror of `retry.RetryOnConflict(retry.DefaultBackoff, fn)`. -/
def RetryOnConflict {S : Type} (fn : S → Option GoError × S) (s : S) : Option GoError × S :=
  OnError IsConflict fn DefaultBackoffSteps s none

/-- Mirror of `realStatefulSetControl.UpdateStatefulSet`. -/
def UpdateStatefulSet {W : Type} (k : KubeCli W) (controller : RuntimeObject)
    (set : StatefulSet) (w : W) : Result W :=
  match controller.meta with
  | none => ⟨none, some (notMetaObject controller), w, [], []⟩
  | some controllerMo =>
    let ns := controllerMo.Namespace
    let setName := set.ObjectMeta.Name
    let setSpec := set.Spec
    match RetryOnConflict (updateAttempt k ns setName setSpec) ⟨set, none, w, []⟩ with
    | (err, st) => ⟨st.updatedSS, err, st.world, st.calls, []⟩

/-- Mirror of `realStatefulSetControl.DeleteStatefulSet`. -/
def DeleteStatefulSet {W : Type} (k : KubeCli W) (controller : RuntimeObject)
    (set : StatefulSet) (w : W) : Result W :=
  match controller.meta with
  | none => ⟨none, some (notMetaObject controller), w, [], []⟩
  | some controllerMo =>
    let kind := controller.Kind
    let name := controllerMo.Name
    let ns := controllerMo.Namespace
    match k.DeleteStatefulSet ns set.ObjectMeta.Name w with
    | (err, w1) =>
      ⟨none, err, w1, [.DeleteStatefulSet ns set.ObjectMeta.Name],
        [recordStatefulSetEvent "delete" kind name controller set err]⟩

/-- Mirror of `realJobControl.recordJobEvent`: the event it hands to the
recorder. `instanceLabelKey` is the constant `label.InstanceLabelKey`, whose
declaration is outside the available sources. -/
def recordJobEvent (instanceLabelKey verb : String) (obj : RuntimeObject) (job : Job)
    (err : Option GoError) : Event :=
  let jobName := job.ObjectMeta.Name
  let ns := job.ObjectMeta.Namespace
  let instanceName := (mapGet job.ObjectMeta.Labels instanceLabelKey).getD ""
  let kind := obj.Kind
  match err with
  | none =>
    let reason := "Successful" ++ Title verb
    let msg := ToLower verb ++ " job " ++ ns ++ "/" ++ jobName ++ " for cluster " ++
      instanceName ++ " " ++ ToLower kind ++ " successful"
    ⟨obj, EventTypeNormal, reason, msg⟩
  | some e =>
    let reason := "Failed" ++ Title verb
    let msg := ToLower verb ++ " job " ++ ns ++ "/" ++ jobName ++ " for cluster " ++
      instanceName ++ " " ++ ToLower kind ++ " failed error: " ++ e.Error
    ⟨obj, EventTypeWarning, reason, msg⟩

/-- Mirror of `realJobControl.CreateJob`. -/
def CreateJob {W : Type} (k : KubeCli W) (instanceLabelKey : String) (object : RuntimeObject)
    (job : Job) (w : W) : Result W :=
  let ns := job.ObjectMeta.Namespace
  match k.CreateJob ns job w with
  | (err, w1) =>
    ⟨none, err, w1, [.CreateJob ns job], [recordJobEvent instanceLabelKey "create" object job err]⟩

/-- Mirror of `realJobControl.DeleteJob`; the delete options carry the
foreground propagation policy. -/
def DeleteJob {W : Type} (k : KubeCli W) (instanceLabelKey : String) (object : RuntimeObject)
    (job : Job) (w : W) : Result W :=
  let ns := job.ObjectMeta.Namespace
  let jobName := job.ObjectMeta.Name
  match k.DeleteJob ns jobName "Foreground" w with
  | (err, w1) =>
    ⟨none, err, w1, [.DeleteJob ns jobName "Foreground"],
      [recordJobEvent instanceLabelKey "delete" object job err]⟩

/-- State of the in-memory API server: the stored StatefulSets and Jobs.
The lister reads the same store. -/
structure KubeWorld where
  sets : List StatefulSet
  jobs : List Job
  deriving DecidableEq, Repr

/-- Is this the object `ns/name`. -/
def isObject (ns name : String) (m : ObjectMeta) : Bool :=
  m.Namespace == ns && m.Name == name

/-- In-memory API server. Create fails with `AlreadyExists` when the object
is stored already; update fails with `NotFound` when it is not stored and
with `Conflict` when the submitted resource version is not the stored one,
and otherwise replaces the stored object; delete fails with `NotFound` when
the object is not stored. -/
def memKube : KubeCli KubeWorld where
  CreateStatefulSet := fun ns set w =>
    if w.sets.any (fun x => isObject ns set.ObjectMeta.Name x.ObjectMeta) then
      (some (.status "AlreadyExists" ("statefulsets " ++ set.ObjectMeta.Name ++ " already exists")), w)
    else (none, { w with sets := w.sets ++ [set] })
  UpdateStatefulSet := fun ns set w =>
    match w.sets.find? (fun x => isObject ns set.ObjectMeta.Name x.ObjectMeta) with
    | none =>
      ((none, some (.status "NotFound" ("statefulsets " ++ set.ObjectMeta.Name ++ " not found"))), w)
    | some cur =>
      if cur.ObjectMeta.ResourceVersion == set.ObjectMeta.ResourceVersion then
        ((some set, none),
          { w with sets := w.sets.map (fun x =>
              if isObject ns set.ObjectMeta.Name x.ObjectMeta then set else x) })
      else
        ((none, some (.status "Conflict" ("the object has been modified; please apply your " ++
          "changes to the latest version and try again"))), w)
  DeleteStatefulSet := fun ns name w =>
    if w.sets.any (fun x => isObject ns name x.ObjectMeta) then
      (none, { w with sets := w.sets.filter (fun x => !(isObject ns name x.ObjectMeta)) })
    else (some (.status "NotFound" ("statefulsets " ++ name ++ " not found")), w)
  GetStatefulSet := fun ns name w =>
    match w.sets.find? (fun x => isObject ns name x.ObjectMeta) with
    | some cur => (.ok cur, w)
    | none => (.error (.status "NotFound" ("statefulset " ++ name ++ " not found")), w)
  CreateJob := fun ns job w =>
    if w.jobs.any (fun x => isObject ns job.ObjectMeta.Name x.ObjectMeta) then
      (some (.status "AlreadyExists" ("jobs " ++ job.ObjectMeta.Name ++ " already exists")), w)
    else (none, { w with jobs := w.jobs ++ [job] })
  DeleteJob := fun ns name _ w =>
    if w.jobs.any (fun x => isObject ns name x.ObjectMeta) then
      (none, { w with jobs := w.jobs.filter (fun x => !(isObject ns name x.ObjectMeta)) })
    else (some (.status "NotFound" ("jobs " ++ name ++ " not found")), w)

/-- The owning object: the TidbCluster `ns/tc`. -/
def demoOwner : RuntimeObject :=
  { TypeName := "*v1alpha1.TidbCluster", Kind := "TidbCluster",
    meta := some { Namespace := "ns", Name := "tc", ResourceVersion := "7", Labels := [] } }

/-- The StatefulSet `ns/tc-pd` as stored: resource version 2, a service name
written by another client, three ready replicas. -/
def storedSet : StatefulSet :=
  { ObjectMeta := { Namespace := "ns", Name := "tc-pd", ResourceVersion := "2", Labels := [] },
    Spec := { Replicas := 3, ServiceName := "tc-pd-peer-v2", Template := "pd:v1" },
    Status := { Replicas := 3, ReadyReplicas := 3 } }

/-- The StatefulSet `ns/tc-pd` as the caller submits it: built on the stale
resource version 1, with the replica count raised to 4. -/
def callerSet : StatefulSet :=
  { ObjectMeta := { Namespace := "ns", Name := "tc-pd", ResourceVersion := "1", Labels := [] },
    Spec := { Replicas := 4, ServiceName := "tc-pd-peer", Template := "pd:v1" },
    Status := { Replicas := 0, ReadyReplicas := 0 } }

/-- A backup Job of the cluster `tc`. -/
def demoJob : Job :=
  { ObjectMeta :=
      { Namespace := "ns", Name := "backup-1", ResourceVersion := "1",
        Labels := [("app.kubernetes.io/instance", "tc")] } }

/-- A world that stores `storedSet` and no Job. -/
def demoKube : KubeWorld :=
  { sets := [storedSet], jobs := [] }

end controller

/-! ## The fake StatefulSet control -/

namespace controller

/-- The operations of `RequestTracker` that the fake control calls; the type
is declared outside the available sources and is taken as a parameter `T`
with these operations. -/
structure RequestTracker (T : Type) where
  ErrorReady : T → Bool
  GetError : T → Option GoError
  Inc : T → T
  Reset : T → T

/-- Mirror of `FakeStatefulSetControl`: the indexer contents (the lister
reads them), the three trackers and the pending status change. -/
structure FakeStatefulSetControl (T : Type) where
  SetIndexer : List StatefulSet
  createStatefulSetTracker : T
  updateStatefulSetTracker : T
  deleteStatefulSetTracker : T
  statusChange : Option (StatefulSet → StatefulSet)

/-- Mirror of `cache.Indexer.Add` / `Update` of client-go: the object is
stored under its `namespace/name` key, replacing an object with that key. -/
def indexerAdd (indexer : List StatefulSet) (set : StatefulSet) : List StatefulSet :=
  set :: indexer.filter
    (fun x => !(isObject set.ObjectMeta.Namespace set.ObjectMeta.Name x.ObjectMeta))

/-- Mirror of `FakeStatefulSetControl.CreateStatefulSet`: the returned error
and the control after the call. The deferred functions run last: first the
tracker `Reset` (when the error path was taken), then `Inc` and the clearing
of `statusChange`. -/
def FakeStatefulSetControl.CreateStatefulSet {T : Type} (rt : RequestTracker T)
    (c : FakeStatefulSetControl T) (controller : RuntimeObject) (set : StatefulSet) :
    Option GoError × FakeStatefulSetControl T :=
  let deferred := fun (c : FakeStatefulSetControl T) =>
    { c with createStatefulSetTracker := rt.Inc c.createStatefulSetTracker, statusChange := none }
  match controller.meta with
  | none =>
    (some (.plain (controller.TypeName ++
      " is not a metav1.Object, cannot call CreateStatefulSet")), deferred c)
  | some controllerMo =>
    let ns := controllerMo.Namespace
    if ns != set.ObjectMeta.Namespace then
      (some (.plain (controller.TypeName ++ " is not match sts namespace:" ++
        set.ObjectMeta.Namespace)), deferred c)
    else if rt.ErrorReady c.createStatefulSetTracker then
      (rt.GetError c.createStatefulSetTracker,
        deferred { c with createStatefulSetTracker := rt.Reset c.createStatefulSetTracker })
    else
      let set := match c.statusChange with
        | some fn => fn set
        | none => set
      (none, deferred { c with SetIndexer := indexerAdd c.SetIndexer set })

/-- Mirror of `FakeStatefulSetControl.DeleteStatefulSet`: `return nil`. -/
def FakeStatefulSetControl.DeleteStatefulSet {T : Type} (c : FakeStatefulSetControl T)
    (_controller : RuntimeObject) (_set : StatefulSet) :
    Option GoError × FakeStatefulSetControl T :=
  (none, c)

/-- A tracker that counts requests and has no error set. -/
def countingTracker : RequestTracker Nat where
  ErrorReady := fun _ => false
  GetError := fun _ => none
  Inc := fun n => n + 1
  Reset := fun n => n

/-- The fake control as `NewFakeStatefulSetControl` returns it. -/
def newFake : FakeStatefulSetControl Nat :=
  { SetIndexer := [], createStatefulSetTracker := 0, updateStatefulSetTracker := 0,
    deleteStatefulSetTracker := 0, statusChange := none }

end controller

/-! ## The fake scaler -/

/-- Wrap-around of `int32` arithmetic. -/
def wrapInt32 (x : Int) : Int :=
  (x + 2147483648) % 4294967296 - 2147483648

namespace fakeMasterScaler

/-- Mirror of `fakeMasterScaler.ScaleOut`: the returned error and `newSet`
after the call. The delete-slot argument is nil. -/
def ScaleOut (_meta : MetaObject) (oldSet newSet : StatefulSet) : Option GoError × StatefulSet :=
  (none, setReplicasAndDeleteSlots newSet (wrapInt32 (oldSet.Replicas + 1)) ∅)

/-- Mirror of `fakeMasterScaler.ScaleIn`. -/
def ScaleIn (_meta : MetaObject) (oldSet newSet : StatefulSet) : Option GoError × StatefulSet :=
  (none, setReplicasAndDeleteSlots newSet (wrapInt32 (oldSet.Replicas - 1)) ∅)

/-- Mirror of `fakeMasterScaler.Scale`. -/
def Scale (meta : MetaObject) (oldSet newSet : StatefulSet) : Option GoError × StatefulSet :=
  if newSet.Replicas > oldSet.Replicas then
    ScaleOut meta oldSet newSet
  else if newSet.Replicas < oldSet.Replicas then
    ScaleIn meta oldSet newSet
  else
    (none, newSet)

/-- The reconcile loop around the scaler: each pass calls `Scale` with the
observed set and the same desired set, and the resulting `newSet` is
persisted as the next observed set; `reconcile meta desired n observed` is
the observed set after `n` passes. -/
def reconcile (meta : MetaObject) (desired : StatefulSet) : Nat → StatefulSet → StatefulSet
  | 0, observed => observed
  | n + 1, observed => reconcile meta desired n (Scale meta observed desired).2

end fakeMasterScaler

/-! ## Helpers of the end-to-end tests (`tests/failover.go`) -/

namespace tests

/-- Mirror of `corev1.ContainerStateWaiting`. -/
structure ContainerStateWaiting where
  Reason : String
  deriving DecidableEq, Repr

/-- Mirror of `corev1.ContainerStateTerminated`; `ExitCode` and `Signal` are
`int32` values. -/
structure ContainerStateTerminated where
  ExitCode : Int
  Signal : Int
  Reason : String
  deriving DecidableEq, Repr

/-- Mirror of `corev1.ContainerState`: each member is a pointer, nil when
the container is not in that state. -/
structure ContainerState where
  Waiting : Option ContainerStateWaiting
  Running : Bool
  Terminated : Option ContainerStateTerminated
  deriving DecidableEq, Repr

/-- Mirror of `corev1.ContainerStatus`. -/
structure ContainerStatus where
  Name : String
  State : ContainerState
  deriving DecidableEq, Repr

/-- Mirror of `corev1.PodStatus`. -/
structure PodStatus where
  Phase : String
  Reason : String
  InitContainerStatuses : List ContainerStatus
  ContainerStatuses : List ContainerStatus
  deriving DecidableEq, Repr

/-- Mirror of `corev1.Pod`: name, deletion timestamp (nil or set), the names
of `Spec.InitContainers`, and the status. -/
structure Pod where
  Name : String
  DeletionTimestamp : Option String
  InitContainers : List String
  Status : PodStatus
  deriving DecidableEq, Repr

/-- The first loop of `GetPodStatus` from index `i` on: `none` when every
remaining init container is terminated with exit code 0 (`initializing`
stays false), otherwise the reason set for the first other container, after
which the loop is left. -/
def initReason (pod : Pod) : Nat → List ContainerStatus → Option String
  | _, [] => none
  | i, container :: rest =>
    match container.State.Terminated with
    | some terminated =>
      if terminated.ExitCode == 0 then
        initReason pod (i + 1) rest
      else if terminated.Reason.length == 0 then
        if terminated.Signal != 0 then
          some ("Init:Signal:" ++ toString terminated.Signal)
        else
          some ("Init:ExitCode:" ++ toString terminated.ExitCode)
      else
        some ("Init:" ++ terminated.Reason)
    | none =>
      match container.State.Waiting with
      | some waiting =>
        if waiting.Reason.length > 0 && waiting.Reason != "PodInitializing" then
          some ("Init:" ++ waiting.Reason)
        else
          some ("Init:" ++ toString i ++ "/" ++ toString pod.InitContainers.length)
      | none => some ("Init:" ++ toString i ++ "/" ++ toString pod.InitContainers.length)

/-- The two `else if` branches on `Terminated` in the second loop of
`GetPodStatus`: the terminated reason, or the signal or exit code when that
reason is empty; `reason` is kept when the container is not terminated. -/
def terminatedReason (container : ContainerStatus) (reason : String) : String :=
  match container.State.Terminated with
  | some terminated =>
    if terminated.Reason != "" then terminated.Reason
    else if terminated.Signal != 0 then "Signal:" ++ toString terminated.Signal
    else "ExitCode:" ++ toString terminated.ExitCode
  | none => reason

/-- The body of the second loop of `GetPodStatus` for one container. -/
def containerReason (container : ContainerStatus) (reason : String) : String :=
  match container.State.Waiting with
  | some waiting =>
    if waiting.Reason != "" then waiting.Reason else terminatedReason container reason
  | none => terminatedReason container reason

/-- Mirror of `GetPodStatus`. `nodeUnreachablePodReason` is the constant
`NodeUnreachablePodReason`, declared outside the available sources. The
second loop runs from the last container status down to the first, which is
a right fold. -/
def GetPodStatus (nodeUnreachablePodReason : String) (pod : Pod) : String :=
  let reason := if pod.Status.Reason != "" then pod.Status.Reason else pod.Status.Phase
  let reason :=
    match initReason pod 0 pod.Status.InitContainerStatuses with
    | some initReason => initReason
    | none => pod.Status.ContainerStatuses.foldr containerReason reason
  if pod.DeletionTimestamp.isSome && pod.Status.Reason == nodeUnreachablePodReason then
    "Unknown"
  else if pod.DeletionTimestamp.isSome then
    "Terminating"
  else
    reason

/-- Entry of `tc.Status.PD.FailureMembers`. -/
structure PDFailureMember where
  PodName : String
  deriving DecidableEq, Repr

/-- Entry of `tc.Status.PD.Members`. -/
structure PDMember where
  Name : String
  deriving DecidableEq, Repr

/-- Mirror of `tc.Status.PD`; the two maps are given by their entries. -/
structure PDStatus where
  Synced : Bool
  Members : List PDMember
  FailureMembers : List PDFailureMember
  deriving DecidableEq, Repr

/-- The part of `v1alpha1.TidbCluster` that `pdFailover` reads:
`Spec.PD.Replicas` and `Status.PD`. -/
structure TidbCluster where
  Namespace : String
  Name : String
  SpecPDReplicas : Int
  StatusPD : PDStatus
  deriving DecidableEq, Repr

/-- Mirror of `OperatorActions.pdFailover`. -/
def pdFailover (pod : Pod) (tc : TidbCluster) : Bool :=
  let failure := tc.StatusPD.FailureMembers.any (fun failureMember =>
    failureMember.PodName == pod.Name)
  if !failure then
    false
  else if tc.StatusPD.Members.any (fun member => member.Name == pod.Name) then
    false
  else if tc.StatusPD.Synced && ((tc.StatusPD.Members.length : Int) == tc.SpecPDReplicas) then
    true
  else
    false

/-- An init container status that is terminated with exit code 0. -/
def initSucceeded (container : ContainerStatus) : Bool :=
  match container.State.Terminated with
  | some terminated => terminated.ExitCode == 0
  | none => false

/-- A container status that is waiting with a non-empty reason, or terminated. -/
def reports (container : ContainerStatus) : Bool :=
  (match container.State.Waiting with
    | some waiting => waiting.Reason != ""
    | none => false) || container.State.Terminated.isSome

/-- A pod that is being deleted while its init container has failed and its
container is crash-looping. -/
def demoPod : Pod :=
  { Name := "tc-pd-1", DeletionTimestamp := some "2020-06-01T12:00:00Z",
    InitContainers := ["init"],
    Status :=
      { Phase := "Running", Reason := "",
        InitContainerStatuses := [⟨"init", ⟨none, false, some ⟨1, 0, "Error"⟩⟩⟩],
        ContainerStatuses := [⟨"pd", ⟨some ⟨"CrashLoopBackOff"⟩, false, none⟩⟩] } }

end tests

/-! ## Failure leaves the replica count at the observed value -/

/-- C1, as stated, fails: with an unsynced cluster, observed replicas 3 and
desired replicas 2, `Scale` returns an error and `newSet` is no longer the
object the caller supplied (its replica count is 3, not 2). -/
theorem scale_error_changes_supplied_newSet :
    ¬ ((Scale specHelpers memDeps (.dmCluster (demoCluster false "dc-dm-master-0"))
          (demoSet 3 ∅) (demoSet 2 ∅) demoWorld).err ≠ none →
        (Scale specHelpers memDeps (.dmCluster (demoCluster false "dc-dm-master-0"))
          (demoSet 3 ∅) (demoSet 2 ∅) demoWorld).newSet = demoSet 2 ∅) ∧
      ¬ ((ScaleIn specHelpers memDeps (.dmCluster (demoCluster false "dc-dm-master-0"))
          (demoSet 3 ∅) (demoSet 2 ∅) demoWorld).err ≠ none →
        (ScaleIn specHelpers memDeps (.dmCluster (demoCluster false "dc-dm-master-0"))
          (demoSet 3 ∅) (demoSet 2 ∅) demoWorld).newSet.Replicas = (demoSet 2 ∅).Replicas) := by
  decide

/-- C1, amended: whenever `Scale`, `ScaleOut` or `ScaleIn` returns a non-nil
error, `newSet` after the call is the supplied `newSet` with its replica
count reset to `oldSet`'s; the delete-slot set and every other field are as
supplied. -/
theorem scale_error_leaves_newSet_reset {W : Type} (h : Helpers) (d : Deps W)
    (meta : MetaObject) (oldSet newSet : StatefulSet) (w : W) :
    ((Scale h d meta oldSet newSet w).err ≠ none →
        (Scale h d meta oldSet newSet w).newSet = resetReplicas newSet oldSet ∧
        (Scale h d meta oldSet newSet w).newSet.Replicas = oldSet.Replicas ∧
        (Scale h d meta oldSet newSet w).newSet.DeleteSlots = newSet.DeleteSlots) ∧
    ((ScaleOut h d meta oldSet newSet w).err ≠ none →
        (ScaleOut h d meta oldSet newSet w).newSet = resetReplicas newSet oldSet) ∧
    ((ScaleIn h d meta oldSet newSet w).err ≠ none →
        (ScaleIn h d meta oldSet newSet w).newSet = resetReplicas newSet oldSet) := by
  have hout : (ScaleOut h d meta oldSet newSet w).err ≠ none →
      (ScaleOut h d meta oldSet newSet w).newSet = resetReplicas newSet oldSet := by
    unfold ScaleOut
    cases meta with
    | other a b => simp
    | dmCluster dc =>
      dsimp only
      repeat' split
      all_goals simp
  have hin : (ScaleIn h d meta oldSet newSet w).err ≠ none →
      (ScaleIn h d meta oldSet newSet w).newSet = resetReplicas newSet oldSet := by
    unfold ScaleIn
    cases meta with
    | other a b => simp
    | dmCluster dc =>
      dsimp only
      repeat' split
      all_goals simp
  refine ⟨?_, hout, hin⟩
  intro herr
  have key : (Scale h d meta oldSet newSet w).newSet = resetReplicas newSet oldSet := by
    unfold Scale at herr ⊢
    dsimp only at herr ⊢
    split_ifs at herr ⊢ with h1 h2
    · exact hout herr
    · exact hin herr
    · exact absurd rfl herr
  rw [key]
  exact ⟨rfl, rfl, rfl⟩

/-- Witness of C1 amended on the unsynced scale-in 3 → 2. -/
theorem scale_error_leaves_newSet_reset_witness :
    (Scale specHelpers memDeps (.dmCluster (demoCluster false "dc-dm-master-0"))
        (demoSet 3 ∅) (demoSet 2 ∅) demoWorld).err ≠ none ∧
      (Scale specHelpers memDeps (.dmCluster (demoCluster false "dc-dm-master-0"))
        (demoSet 3 ∅) (demoSet 2 ∅) demoWorld).newSet.Replicas = (demoSet 3 ∅).Replicas :=
  ⟨by decide,
    ((scale_error_leaves_newSet_reset specHelpers memDeps
      (.dmCluster (demoCluster false "dc-dm-master-0")) (demoSet 3 ∅) (demoSet 2 ∅)
      demoWorld).1 (by decide)).2.1⟩

/-! ## Scale-in: order of the membership calls -/

/-- C2: if `newSet`'s replica count after `ScaleIn` (DMCluster meta) is
lower than `oldSet`'s, then in that call `DeleteMaster` of the target member
returned nil, the `GetMasters` call made right after it returned a list
without a member of that name, and these were the first two calls made. -/
theorem scaleIn_shrinks_only_after_removal_confirmed {W : Type} (h : Helpers) (d : Deps W)
    (dc : DMCluster) (oldSet newSet : StatefulSet) (w : W)
    (hlt : (ScaleIn h d (.dmCluster dc) oldSet newSet w).newSet.Replicas < oldSet.Replicas) :
    ∃ w1 mastersInfo w2,
      d.DeleteMaster dc (targetMember h dc oldSet newSet) w = (none, w1) ∧
      d.GetMasters dc w1 = (.ok mastersInfo, w2) ∧
      (∀ m ∈ mastersInfo, m.Name ≠ targetMember h dc oldSet newSet) ∧
      (ScaleIn h d (.dmCluster dc) oldSet newSet w).calls.take 2 =
        [.DeleteMaster (targetMember h dc oldSet newSet), .GetMasters] := by
  unfold ScaleIn at hlt ⊢
  dsimp only at hlt ⊢
  unfold targetMember
  split at hlt
  · simp [resetReplicas] at hlt
  · split at hlt
    · split at hlt <;> simp [resetReplicas] at hlt
    · rename_i hs hl
      rw [if_neg hs, if_neg hl]
      split at hlt
      · simp [resetReplicas] at hlt
      · rename_i w1 hdel
        split at hlt
        · simp [resetReplicas] at hlt
        · rename_i mastersInfo w2 hget
          split at hlt
          · simp [resetReplicas] at hlt
          · rename_i hex
            refine ⟨w1, mastersInfo, w2, hdel, hget, ?_, ?_⟩
            · intro m hm hname
              apply hex
              simp only [existed, List.any_eq_true, beq_iff_eq]
              exact ⟨m, hm, hname⟩
            · rw [if_neg hex]
              repeat' split
              all_goals rfl

/-- Witness of C2 on the synced scale-in 3 → 2 whose target is not the leader. -/
theorem scaleIn_shrinks_only_after_removal_confirmed_witness :
    (ScaleIn specHelpers memDeps (.dmCluster (demoCluster true "dc-dm-master-1"))
        (demoSet 3 ∅) (demoSet 2 ∅) demoWorld).newSet.Replicas < (demoSet 3 ∅).Replicas ∧
      (ScaleIn specHelpers memDeps (.dmCluster (demoCluster true "dc-dm-master-1"))
        (demoSet 3 ∅) (demoSet 2 ∅) demoWorld).calls.take 2 =
        [.DeleteMaster (targetMember specHelpers (demoCluster true "dc-dm-master-1")
          (demoSet 3 ∅) (demoSet 2 ∅)), .GetMasters] :=
  ⟨by decide,
    (scaleIn_shrinks_only_after_removal_confirmed specHelpers memDeps
      (demoCluster true "dc-dm-master-1") (demoSet 3 ∅) (demoSet 2 ∅) demoWorld
      (by decide)).choose_spec.choose_spec.choose_spec.2.2.2⟩

/-- C3: with a synced DMCluster, a target ordinal above 0 and the target
member named as leader, `ScaleIn` makes exactly one collaborator call,
`EvictLeader` for that member (so no `DeleteMaster`, `GetMasters`, PVC
lookup or `UpdatePVC`); when that call succeeds the result is a requeue
error, when it fails the result is its error; the step is not committed:
`newSet`'s replica count equals `oldSet`'s. -/
theorem scaleIn_leader_is_evicted_not_deleted {W : Type} (h : Helpers) (d : Deps W)
    (dc : DMCluster) (oldSet newSet : StatefulSet) (w : W)
    (hsynced : dc.Status.Master.Synced = true)
    (hord : (h.scaleOne oldSet newSet).ordinal > 0)
    (hleader : dc.Status.Master.Leader.Name = targetMember h dc oldSet newSet) :
    (ScaleIn h d (.dmCluster dc) oldSet newSet w).calls =
        [.EvictLeader (targetMember h dc oldSet newSet)] ∧
      ((d.EvictLeader dc (targetMember h dc oldSet newSet) w).1 = none →
        IsRequeueError (ScaleIn h d (.dmCluster dc) oldSet newSet w).err = true) ∧
      (∀ e, (d.EvictLeader dc (targetMember h dc oldSet newSet) w).1 = some e →
        (ScaleIn h d (.dmCluster dc) oldSet newSet w).err = some e) ∧
      (ScaleIn h d (.dmCluster dc) oldSet newSet w).world =
        (d.EvictLeader dc (targetMember h dc oldSet newSet) w).2 ∧
      (ScaleIn h d (.dmCluster dc) oldSet newSet w).newSet.Replicas = oldSet.Replicas ∧
      (ScaleIn h d (.dmCluster dc) oldSet newSet w).newSet = resetReplicas newSet oldSet := by
  unfold targetMember at hleader ⊢
  unfold ScaleIn
  dsimp only
  rw [if_neg (by simp [hsynced]), if_pos ⟨hord, hleader⟩]
  rcases hev : d.EvictLeader dc
      (h.ordinalPodName h.DMMasterMemberType dc.Name (h.scaleOne oldSet newSet).ordinal) w
    with ⟨_ | e, w1⟩
  · simp [IsRequeueError, resetReplicas]
  · simp [resetReplicas]

/-- Witness of C3: Scenario A, replicas 3 → 2 with `dc-dm-master-2` leader. -/
theorem scaleIn_leader_is_evicted_not_deleted_witness :
    (ScaleIn specHelpers memDeps (.dmCluster (demoCluster true "dc-dm-master-2"))
        (demoSet 3 ∅) (demoSet 2 ∅) demoWorld).calls = [.EvictLeader "dc-dm-master-2"] ∧
      (ScaleIn specHelpers memDeps (.dmCluster (demoCluster true "dc-dm-master-2"))
        (demoSet 3 ∅) (demoSet 2 ∅) demoWorld).newSet.Replicas = 3 :=
  ⟨(scaleIn_leader_is_evicted_not_deleted specHelpers memDeps
      (demoCluster true "dc-dm-master-2") (demoSet 3 ∅) (demoSet 2 ∅) demoWorld
      (by decide) (by decide) (by decide)).1,
    (scaleIn_leader_is_evicted_not_deleted specHelpers memDeps
      (demoCluster true "dc-dm-master-2") (demoSet 3 ∅) (demoSet 2 ∅) demoWorld
      (by decide) (by decide) (by decide)).2.2.2.2.1⟩

/-- C4: with a synced DMCluster and target ordinal 0, `ScaleIn` never calls
`EvictLeader`, whoever the leader is, and its first collaborator call is
`DeleteMaster` for the target member. -/
theorem scaleIn_ordinal_zero_skips_evict {W : Type} (h : Helpers) (d : Deps W)
    (dc : DMCluster) (oldSet newSet : StatefulSet) (w : W)
    (hsynced : dc.Status.Master.Synced = true)
    (hord : (h.scaleOne oldSet newSet).ordinal = 0) :
    (∀ m, Call.EvictLeader m ∉ (ScaleIn h d (.dmCluster dc) oldSet newSet w).calls) ∧
      (ScaleIn h d (.dmCluster dc) oldSet newSet w).calls.head? =
        some (.DeleteMaster (targetMember h dc oldSet newSet)) := by
  unfold targetMember
  unfold ScaleIn
  dsimp only
  rw [if_neg (by simp [hsynced]), if_neg (by simp [hord])]
  constructor
  · intro m
    repeat' split
    all_goals simp
  · repeat' split
    all_goals rfl

/-- Witness of C4: scale-in 1 → 0 while `dc-dm-master-0` is the leader. -/
theorem scaleIn_ordinal_zero_skips_evict_witness :
    (demoCluster true "dc-dm-master-0").Status.Master.Leader.Name =
        targetMember specHelpers (demoCluster true "dc-dm-master-0") (demoSet 1 ∅) (demoSet 0 ∅) ∧
      (ScaleIn specHelpers memDeps (.dmCluster (demoCluster true "dc-dm-master-0"))
        (demoSet 1 ∅) (demoSet 0 ∅) demoWorld).calls.head? =
        some (.DeleteMaster "dc-dm-master-0") :=
  ⟨by decide,
    (scaleIn_ordinal_zero_skips_evict specHelpers memDeps (demoCluster true "dc-dm-master-0")
      (demoSet 1 ∅) (demoSet 0 ∅) demoWorld (by decide) (by decide)).2⟩

/-- C5: with an unsynced DMCluster, `ScaleIn` returns a non-nil error and
calls no collaborator at all (no `EvictLeader`, `DeleteMaster`,
`GetMasters`, PVC lookup or `UpdatePVC`); the world is untouched. -/
theorem scaleIn_unsynced_calls_nothing {W : Type} (h : Helpers) (d : Deps W)
    (dc : DMCluster) (oldSet newSet : StatefulSet) (w : W)
    (hsynced : dc.Status.Master.Synced = false) :
    (ScaleIn h d (.dmCluster dc) oldSet newSet w).err ≠ none ∧
      (ScaleIn h d (.dmCluster dc) oldSet newSet w).calls = [] ∧
      (ScaleIn h d (.dmCluster dc) oldSet newSet w).world = w := by
  unfold ScaleIn
  dsimp only
  rw [if_pos (by simp [hsynced])]
  simp

/-- Witness of C5: Scenario C on the scale-in 3 → 2. -/
theorem scaleIn_unsynced_calls_nothing_witness :
    (demoCluster false "dc-dm-master-2").Status.Master.Synced = false ∧
      (ScaleIn specHelpers memDeps (.dmCluster (demoCluster false "dc-dm-master-2"))
        (demoSet 3 ∅) (demoSet 2 ∅) demoWorld).calls = [] :=
  ⟨rfl,
    (scaleIn_unsynced_calls_nothing specHelpers memDeps (demoCluster false "dc-dm-master-2")
      (demoSet 3 ∅) (demoSet 2 ∅) demoWorld rfl).2.1⟩

/-! ## Scale-out: the sync check comes after the deferred-PVC cleanup -/

/-- C6, as stated, fails: with an unsynced cluster and a scale-out 3 → 5,
`ScaleOut` returns an error but has run `deleteDeferDeletingPVC` for the
target ordinal 3, and the in-memory world has lost the claim of ordinal 3. -/
theorem scaleOut_unsynced_runs_pvc_cleanup :
    (demoCluster false "dc-dm-master-0").Status.Master.Synced = false ∧
      (ScaleOut specHelpers memDeps (.dmCluster (demoCluster false "dc-dm-master-0"))
        (demoSet 3 ∅) (demoSet 5 ∅) demoWorld).err ≠ none ∧
      (ScaleOut specHelpers memDeps (.dmCluster (demoCluster false "dc-dm-master-0"))
        (demoSet 3 ∅) (demoSet 5 ∅) demoWorld).calls = [.deleteDeferDeletingPVC "dm-master" 3] ∧
      (ScaleOut specHelpers memDeps (.dmCluster (demoCluster false "dc-dm-master-0"))
        (demoSet 3 ∅) (demoSet 5 ∅) demoWorld).world.pvcs.length = 3 ∧
      demoWorld.pvcs.length = 4 := by
  decide

/-- C6, amended: with an unsynced DMCluster, `ScaleOut` returns a non-nil
error and does not commit the step, and the only collaborator call it makes
is `deleteDeferDeletingPVC` for the target ordinal, which runs once, before
the sync check; the world is the one that call leaves. -/
theorem scaleOut_unsynced_only_runs_pvc_cleanup {W : Type} (h : Helpers) (d : Deps W)
    (dc : DMCluster) (oldSet newSet : StatefulSet) (w : W)
    (hsynced : dc.Status.Master.Synced = false) :
    (ScaleOut h d (.dmCluster dc) oldSet newSet w).err ≠ none ∧
      (ScaleOut h d (.dmCluster dc) oldSet newSet w).calls =
        [.deleteDeferDeletingPVC h.DMMasterMemberType (h.scaleOne oldSet newSet).ordinal] ∧
      (ScaleOut h d (.dmCluster dc) oldSet newSet w).world =
        (d.deleteDeferDeletingPVC dc h.DMMasterMemberType
          (h.scaleOne oldSet newSet).ordinal w).2 ∧
      (ScaleOut h d (.dmCluster dc) oldSet newSet w).newSet = resetReplicas newSet oldSet := by
  unfold ScaleOut
  dsimp only
  rcases hdel : d.deleteDeferDeletingPVC dc h.DMMasterMemberType
      (h.scaleOne oldSet newSet).ordinal w with ⟨_ | e, w1⟩
  · simp [hsynced]
  · simp

/-- Witness of C6 amended on the unsynced scale-out 3 → 5. -/
theorem scaleOut_unsynced_only_runs_pvc_cleanup_witness :
    (demoCluster false "dc-dm-master-0").Status.Master.Synced = false ∧
      (ScaleOut specHelpers memDeps (.dmCluster (demoCluster false "dc-dm-master-0"))
        (demoSet 3 ∅) (demoSet 5 ∅) demoWorld).newSet = resetReplicas (demoSet 5 ∅) (demoSet 3 ∅) :=
  ⟨rfl,
    (scaleOut_unsynced_only_runs_pvc_cleanup specHelpers memDeps
      (demoCluster false "dc-dm-master-0") (demoSet 3 ∅) (demoSet 5 ∅) demoWorld rfl).2.2.2⟩

/-! ## The step is computed before the reset and committed on success -/

/-- C7, as stated, fails: on the synced scale-out 3 → 5 `ScaleOut` hands
ordinal 3 to the cleanup and commits replica count 4, whereas `scaleOne`
applied to `oldSet` and the already-reset `newSet` yields a no-op step
(ordinal -1, replica count 3). -/
theorem scaleOut_step_is_not_computed_after_reset :
    (ScaleOut specHelpers memDeps (.dmCluster (demoCluster true "dc-dm-master-0"))
        (demoSet 3 ∅) (demoSet 5 ∅) demoWorld).err = none ∧
      (ScaleOut specHelpers memDeps (.dmCluster (demoCluster true "dc-dm-master-0"))
        (demoSet 3 ∅) (demoSet 5 ∅) demoWorld).calls = [.deleteDeferDeletingPVC "dm-master" 3] ∧
      (ScaleOut specHelpers memDeps (.dmCluster (demoCluster true "dc-dm-master-0"))
        (demoSet 3 ∅) (demoSet 5 ∅) demoWorld).newSet.Replicas = 4 ∧
      (specHelpers.scaleOne (demoSet 3 ∅) (resetReplicas (demoSet 5 ∅) (demoSet 3 ∅))).ordinal = -1 ∧
      (specHelpers.scaleOne (demoSet 3 ∅) (resetReplicas (demoSet 5 ∅) (demoSet 3 ∅))).replicas = 3 := by
  decide

/-- C7, amended: in `ScaleOut` and `ScaleIn` (DMCluster meta) the step is
computed by `scaleOne` from `oldSet` and `newSet` as the caller supplied it,
and only then is `newSet`'s replica count reset: the call behaves exactly
like a call on the already-reset `newSet` in which the step is fixed to
`scaleOne(oldSet, supplied newSet)`; in particular the ordinal handed to
`deleteDeferDeletingPVC` is that step's ordinal. -/
theorem step_is_computed_from_supplied_newSet {W : Type} (h : Helpers) (d : Deps W)
    (dc : DMCluster) (oldSet newSet : StatefulSet) (w : W) :
    ScaleOut h d (.dmCluster dc) oldSet newSet w =
        ScaleOut { h with scaleOne := fun _ _ => h.scaleOne oldSet newSet } d (.dmCluster dc)
          oldSet (resetReplicas newSet oldSet) w ∧
      ScaleIn h d (.dmCluster dc) oldSet newSet w =
        ScaleIn { h with scaleOne := fun _ _ => h.scaleOne oldSet newSet } d (.dmCluster dc)
          oldSet (resetReplicas newSet oldSet) w ∧
      (ScaleOut h d (.dmCluster dc) oldSet newSet w).calls =
        [.deleteDeferDeletingPVC h.DMMasterMemberType (h.scaleOne oldSet newSet).ordinal] := by
  have hreset : resetReplicas (resetReplicas newSet oldSet) oldSet = resetReplicas newSet oldSet :=
    rfl
  refine ⟨?_, ?_, ?_⟩
  · unfold ScaleOut
    dsimp only
    rw [hreset]
  · unfold ScaleIn
    dsimp only
    rw [hreset]
  · unfold ScaleOut
    dsimp only
    repeat' split
    all_goals rfl

/-- C8: when `ScaleOut` or `ScaleIn` (DMCluster meta) returns nil, `newSet`'s
replica count and delete-slot set after the call are the `replicas` and
`deleteSlots` that `scaleOne(oldSet, newSet)` produced. -/
theorem success_commits_the_step {W : Type} (h : Helpers) (d : Deps W)
    (dc : DMCluster) (oldSet newSet : StatefulSet) (w : W) :
    ((ScaleOut h d (.dmCluster dc) oldSet newSet w).err = none →
        (ScaleOut h d (.dmCluster dc) oldSet newSet w).newSet.Replicas =
            (h.scaleOne oldSet newSet).replicas ∧
          (ScaleOut h d (.dmCluster dc) oldSet newSet w).newSet.DeleteSlots =
            (h.scaleOne oldSet newSet).deleteSlots) ∧
    ((ScaleIn h d (.dmCluster dc) oldSet newSet w).err = none →
        (ScaleIn h d (.dmCluster dc) oldSet newSet w).newSet.Replicas =
            (h.scaleOne oldSet newSet).replicas ∧
          (ScaleIn h d (.dmCluster dc) oldSet newSet w).newSet.DeleteSlots =
            (h.scaleOne oldSet newSet).deleteSlots) := by
  constructor
  · unfold ScaleOut
    dsimp only
    repeat' split
    all_goals simp [setReplicasAndDeleteSlots]
  · unfold ScaleIn
    dsimp only
    repeat' split
    all_goals simp [setReplicasAndDeleteSlots]

/-- Witness of C8: the synced scale-out 3 → 5 and the synced scale-in 3 → 2. -/
theorem success_commits_the_step_witness :
    (ScaleOut specHelpers memDeps (.dmCluster (demoCluster true "dc-dm-master-1"))
        (demoSet 3 ∅) (demoSet 5 ∅) demoWorld).err = none ∧
      (ScaleOut specHelpers memDeps (.dmCluster (demoCluster true "dc-dm-master-1"))
        (demoSet 3 ∅) (demoSet 5 ∅) demoWorld).newSet.Replicas =
        (specHelpers.scaleOne (demoSet 3 ∅) (demoSet 5 ∅)).replicas ∧
      (ScaleIn specHelpers memDeps (.dmCluster (demoCluster true "dc-dm-master-1"))
        (demoSet 3 ∅) (demoSet 2 ∅) demoWorld).err = none ∧
      (ScaleIn specHelpers memDeps (.dmCluster (demoCluster true "dc-dm-master-1"))
        (demoSet 3 ∅) (demoSet 2 ∅) demoWorld).newSet.DeleteSlots =
        (specHelpers.scaleOne (demoSet 3 ∅) (demoSet 2 ∅)).deleteSlots :=
  ⟨by decide,
    ((success_commits_the_step specHelpers memDeps (demoCluster true "dc-dm-master-1")
      (demoSet 3 ∅) (demoSet 5 ∅) demoWorld).1 (by decide)).1,
    by decide,
    ((success_commits_the_step specHelpers memDeps (demoCluster true "dc-dm-master-1")
      (demoSet 3 ∅) (demoSet 2 ∅) demoWorld).2 (by decide)).2⟩

/-! ## One step per call -/

/-- The step of `scaleOne` moves the replica count by at most one. -/
theorem scaleOne_replicas_near (actual desired : StatefulSet) :
    |(scaleOne actual desired).replicas - actual.Replicas| ≤ 1 := by
  unfold scaleOne
  dsimp only
  split_ifs <;> simp

/-- The direction of `scaleOne` is the sign of the replica-count gap. -/
theorem scaleOne_scaling (actual desired : StatefulSet) :
    ((scaleOne actual desired).scaling > 0 ↔ desired.Replicas > actual.Replicas) ∧
      ((scaleOne actual desired).scaling < 0 ↔ desired.Replicas < actual.Replicas) := by
  unfold scaleOne
  split_ifs <;> simp <;> omega

/-- After `ScaleOut` or `ScaleIn` on a DMCluster, `newSet` is either the
reset `newSet` or the reset `newSet` with the step committed. -/
theorem newSet_reset_or_committed {W : Type} (h : Helpers) (d : Deps W)
    (dc : DMCluster) (oldSet newSet : StatefulSet) (w : W) :
    ((ScaleOut h d (.dmCluster dc) oldSet newSet w).newSet = resetReplicas newSet oldSet ∨
        (ScaleOut h d (.dmCluster dc) oldSet newSet w).newSet =
          setReplicasAndDeleteSlots (resetReplicas newSet oldSet)
            (h.scaleOne oldSet newSet).replicas (h.scaleOne oldSet newSet).deleteSlots) ∧
    ((ScaleIn h d (.dmCluster dc) oldSet newSet w).newSet = resetReplicas newSet oldSet ∨
        (ScaleIn h d (.dmCluster dc) oldSet newSet w).newSet =
          setReplicasAndDeleteSlots (resetReplicas newSet oldSet)
            (h.scaleOne oldSet newSet).replicas (h.scaleOne oldSet newSet).deleteSlots) := by
  constructor
  · unfold ScaleOut
    dsimp only
    repeat' split
    all_goals simp
  · unfold ScaleIn
    dsimp only
    repeat' split
    all_goals simp

/-- C9: with `scaleOne` as the specification describes it, after `Scale`
returns on a DMCluster (with or without an error) `newSet`'s replica count
differs from `oldSet`'s by at most one, however far apart the supplied
replica counts are. -/
theorem scale_changes_replicas_by_at_most_one {W : Type} (h : Helpers) (d : Deps W)
    (dc : DMCluster) (oldSet newSet : StatefulSet) (w : W) (hs : h.scaleOne = scaleOne) :
    |(Scale h d (.dmCluster dc) oldSet newSet w).newSet.Replicas - oldSet.Replicas| ≤ 1 := by
  have hnear := scaleOne_replicas_near oldSet newSet
  have hdir := scaleOne_scaling oldSet newSet
  have hcases := newSet_reset_or_committed h d dc oldSet newSet w
  rw [hs] at hcases
  unfold Scale
  dsimp only
  rw [hs]
  split_ifs with h1 h2
  · rcases hcases.1 with hr | hr <;> rw [hr]
    · simp [resetReplicas]
    · simpa [setReplicasAndDeleteSlots] using hnear
  · rcases hcases.2 with hr | hr <;> rw [hr]
    · simp [resetReplicas]
    · simpa [setReplicasAndDeleteSlots] using hnear
  · have heq : newSet.Replicas = oldSet.Replicas := by
      have a1 := mt hdir.1.2 h1
      have a2 := mt hdir.2.2 h2
      omega
    simp [heq]

/-- Witness of C9: a supplied gap of 7 (3 → 10) moves the replica count to 4. -/
theorem scale_changes_replicas_by_at_most_one_witness :
    (Scale specHelpers memDeps (.dmCluster (demoCluster true "dc-dm-master-0"))
        (demoSet 3 ∅) (demoSet 10 ∅) demoWorld).newSet.Replicas = 4 ∧
      |(Scale specHelpers memDeps (.dmCluster (demoCluster true "dc-dm-master-0"))
        (demoSet 3 ∅) (demoSet 10 ∅) demoWorld).newSet.Replicas - (demoSet 3 ∅).Replicas| ≤ 1 :=
  ⟨by decide,
    scale_changes_replicas_by_at_most_one specHelpers memDeps (demoCluster true "dc-dm-master-0")
      (demoSet 3 ∅) (demoSet 10 ∅) demoWorld rfl⟩

/-- C10: with `scaleOne` as the specification describes it, for every meta
object and every `oldSet`/`newSet` with equal replica counts `Scale` returns
nil, leaves `newSet` as supplied, calls no collaborator and leaves the world
untouched. -/
theorem scale_equal_replicas_is_noop {W : Type} (h : Helpers) (d : Deps W)
    (meta : MetaObject) (oldSet newSet : StatefulSet) (w : W) (hs : h.scaleOne = scaleOne)
    (heq : newSet.Replicas = oldSet.Replicas) :
    (Scale h d meta oldSet newSet w).err = none ∧
      (Scale h d meta oldSet newSet w).newSet = newSet ∧
      (Scale h d meta oldSet newSet w).calls = [] ∧
      (Scale h d meta oldSet newSet w).world = w := by
  have hdir := scaleOne_scaling oldSet newSet
  have h1 : ¬ (scaleOne oldSet newSet).scaling > 0 := fun hc => by
    have := hdir.1.1 hc
    omega
  have h2 : ¬ (scaleOne oldSet newSet).scaling < 0 := fun hc => by
    have := hdir.2.1 hc
    omega
  unfold Scale
  dsimp only
  rw [hs, if_neg h1, if_neg h2]
  exact ⟨rfl, rfl, rfl, rfl⟩

/-- Witness of C10: observed and desired replica count both 3. -/
theorem scale_equal_replicas_is_noop_witness :
    (demoSet 3 ∅).Replicas = (demoSet 3 ∅).Replicas ∧
      (Scale specHelpers memDeps (.dmCluster (demoCluster true "dc-dm-master-0"))
        (demoSet 3 ∅) (demoSet 3 ∅) demoWorld).calls = [] :=
  ⟨rfl,
    (scale_equal_replicas_is_noop specHelpers memDeps
      (.dmCluster (demoCluster true "dc-dm-master-0")) (demoSet 3 ∅) (demoSet 3 ∅) demoWorld
      rfl rfl).2.2.1⟩

/-! ## Scale-in: failures of the membership client and of the storage step -/

/-- C11: in `ScaleIn` (DMCluster meta), when `EvictLeader`, `DeleteMaster` or
`GetMasters` returns an error `e`, `ScaleIn` returns exactly `e`, the failing
call is the last collaborator call (no later membership call, PVC lookup or
`UpdatePVC`), and the step is not committed: `newSet` is the reset one. -/
theorem scaleIn_returns_membership_error {W : Type} (h : Helpers) (d : Deps W)
    (dc : DMCluster) (oldSet newSet : StatefulSet) (w : W) :
    (∀ e w1, dc.Status.Master.Synced = true →
        ((h.scaleOne oldSet newSet).ordinal > 0 ∧
          dc.Status.Master.Leader.Name = targetMember h dc oldSet newSet) →
        d.EvictLeader dc (targetMember h dc oldSet newSet) w = (some e, w1) →
        ScaleIn h d (.dmCluster dc) oldSet newSet w =
          ⟨some e, resetReplicas newSet oldSet, w1,
            [.EvictLeader (targetMember h dc oldSet newSet)]⟩) ∧
    (∀ e w1, dc.Status.Master.Synced = true →
        ¬ ((h.scaleOne oldSet newSet).ordinal > 0 ∧
          dc.Status.Master.Leader.Name = targetMember h dc oldSet newSet) →
        d.DeleteMaster dc (targetMember h dc oldSet newSet) w = (some e, w1) →
        ScaleIn h d (.dmCluster dc) oldSet newSet w =
          ⟨some e, resetReplicas newSet oldSet, w1,
            [.DeleteMaster (targetMember h dc oldSet newSet)]⟩) ∧
    (∀ e w1 w2, dc.Status.Master.Synced = true →
        ¬ ((h.scaleOne oldSet newSet).ordinal > 0 ∧
          dc.Status.Master.Leader.Name = targetMember h dc oldSet newSet) →
        d.DeleteMaster dc (targetMember h dc oldSet newSet) w = (none, w1) →
        d.GetMasters dc w1 = (.error e, w2) →
        ScaleIn h d (.dmCluster dc) oldSet newSet w =
          ⟨some e, resetReplicas newSet oldSet, w2,
            [.DeleteMaster (targetMember h dc oldSet newSet), .GetMasters]⟩) := by
  unfold targetMember
  refine ⟨?_, ?_, ?_⟩
  · intro e w1 hs hg hev
    unfold ScaleIn
    dsimp only
    rw [if_neg (by simp [hs]), if_pos hg, hev]
  · intro e w1 hs hg hdel
    unfold ScaleIn
    dsimp only
    rw [if_neg (by simp [hs]), if_neg hg, hdel]
  · intro e w1 w2 hs hg hdel hget
    unfold ScaleIn
    dsimp only
    rw [if_neg (by simp [hs]), if_neg hg, hdel]
    dsimp only
    rw [hget]

/-- Witness of C11: `DeleteMaster` refuses the connection on the scale-in 3 → 2. -/
theorem scaleIn_returns_membership_error_witness :
    (ScaleIn specHelpers
        (faultyDeps { noFaults with DeleteMaster := some (.plain "connection refused") })
        (.dmCluster (demoCluster true "dc-dm-master-1")) (demoSet 3 ∅) (demoSet 2 ∅)
        demoWorld).err = some (.plain "connection refused") ∧
      (ScaleIn specHelpers
        (faultyDeps { noFaults with DeleteMaster := some (.plain "connection refused") })
        (.dmCluster (demoCluster true "dc-dm-master-1")) (demoSet 3 ∅) (demoSet 2 ∅)
        demoWorld).calls = [.DeleteMaster "dc-dm-master-2"] :=
  ⟨congrArg Run.err
      ((scaleIn_returns_membership_error specHelpers
        (faultyDeps { noFaults with DeleteMaster := some (.plain "connection refused") })
        (demoCluster true "dc-dm-master-1") (demoSet 3 ∅) (demoSet 2 ∅) demoWorld).2.1
        (.plain "connection refused") demoWorld (by decide) (by decide) (by decide)),
    congrArg Run.calls
      ((scaleIn_returns_membership_error specHelpers
        (faultyDeps { noFaults with DeleteMaster := some (.plain "connection refused") })
        (demoCluster true "dc-dm-master-1") (demoSet 3 ∅) (demoSet 2 ∅) demoWorld).2.1
        (.plain "connection refused") demoWorld (by decide) (by decide) (by decide))⟩

/-- C12: in `ScaleIn` (DMCluster meta), after `DeleteMaster` returned nil and
`GetMasters` returned a list: if the list has a member whose `Name` is the
deleted member's name, `ScaleIn` returns a non-nil error, `GetMasters` is its
last collaborator call (no PVC lookup, no `UpdatePVC`) and the step is not
committed; if the list has no such member, the next call is the lookup of the
target ordinal's storage claim. -/
theorem scaleIn_verifies_member_removed {W : Type} (h : Helpers) (d : Deps W)
    (dc : DMCluster) (oldSet newSet : StatefulSet) (w w1 w2 : W)
    (mastersInfo : List MastersInfo)
    (hs : dc.Status.Master.Synced = true)
    (hg : ¬ ((h.scaleOne oldSet newSet).ordinal > 0 ∧
      dc.Status.Master.Leader.Name = targetMember h dc oldSet newSet))
    (hdel : d.DeleteMaster dc (targetMember h dc oldSet newSet) w = (none, w1))
    (hget : d.GetMasters dc w1 = (.ok mastersInfo, w2)) :
    ((∃ m ∈ mastersInfo, m.Name = targetMember h dc oldSet newSet) →
        (ScaleIn h d (.dmCluster dc) oldSet newSet w).err ≠ none ∧
        (ScaleIn h d (.dmCluster dc) oldSet newSet w).calls =
          [.DeleteMaster (targetMember h dc oldSet newSet), .GetMasters] ∧
        (ScaleIn h d (.dmCluster dc) oldSet newSet w).newSet = resetReplicas newSet oldSet ∧
        (ScaleIn h d (.dmCluster dc) oldSet newSet w).world = w2) ∧
    ((∀ m ∈ mastersInfo, m.Name ≠ targetMember h dc oldSet newSet) →
        (ScaleIn h d (.dmCluster dc) oldSet newSet w).calls.take 3 =
          [.DeleteMaster (targetMember h dc oldSet newSet), .GetMasters,
            .GetPVC dc.Namespace (targetPVCName h oldSet newSet)]) := by
  unfold targetMember at hg hdel ⊢
  unfold targetPVCName
  unfold ScaleIn
  dsimp only
  rw [if_neg (by simp [hs]), if_neg hg, hdel]
  dsimp only
  rw [hget]
  dsimp only
  constructor
  · rintro ⟨m, hm, hname⟩
    have hex : existed mastersInfo
        (h.ordinalPodName h.DMMasterMemberType dc.Name (h.scaleOne oldSet newSet).ordinal)
          = true := by
      simp only [existed, List.any_eq_true, beq_iff_eq]
      exact ⟨m, hm, hname⟩
    rw [if_pos hex]
    simp
  · intro hall
    have hex : ¬ existed mastersInfo
        (h.ordinalPodName h.DMMasterMemberType dc.Name (h.scaleOne oldSet newSet).ordinal)
          = true := by
      simp only [existed, List.any_eq_true, beq_iff_eq, not_exists, not_and]
      exact hall
    rw [if_neg hex]
    repeat' split
    all_goals rfl

/-- Witness of C12: `DeleteMaster` answers nil while the member is still listed. -/
theorem scaleIn_verifies_member_removed_witness :
    (∃ m ∈ demoWorld.members, m.Name = targetMember specHelpers
        (demoCluster true "dc-dm-master-1") (demoSet 3 ∅) (demoSet 2 ∅)) ∧
      (ScaleIn specHelpers (faultyDeps { noFaults with staleMembers := true })
        (.dmCluster (demoCluster true "dc-dm-master-1")) (demoSet 3 ∅) (demoSet 2 ∅)
        demoWorld).calls = [.DeleteMaster "dc-dm-master-2", .GetMasters] :=
  ⟨by decide,
    ((scaleIn_verifies_member_removed specHelpers (faultyDeps { noFaults with staleMembers := true })
      (demoCluster true "dc-dm-master-1") (demoSet 3 ∅) (demoSet 2 ∅) demoWorld demoWorld
      demoWorld demoWorld.members (by decide) (by decide) (by decide) rfl).1
      (by decide)).2.1⟩

/-- C13: `ScaleIn` (DMCluster meta) returns nil, the only return that
follows the commit, only if the lookup of the target ordinal's claim
succeeded and `UpdatePVC` of that claim carrying the deferred-deletion
annotation returned nil, these being its last two calls; when the lookup
fails, or the lookup succeeds and `UpdatePVC` fails, `ScaleIn` returns a
non-nil error and `newSet`'s replica count stays `oldSet`'s. -/
theorem scaleIn_commits_only_after_pvc_marked {W : Type} (h : Helpers) (d : Deps W)
    (dc : DMCluster) (oldSet newSet : StatefulSet) (w : W) :
    ((ScaleIn h d (.dmCluster dc) oldSet newSet w).err = none →
      ∃ w2 pvc w3 w4,
        d.GetPVC dc.Namespace (targetPVCName h oldSet newSet) w2 = (.ok pvc, w3) ∧
        d.UpdatePVC dc (markDeferDeleting h.AnnPVCDeferDeleting pvc (d.now w3)) w3 = (none, w4) ∧
        (ScaleIn h d (.dmCluster dc) oldSet newSet w).calls.drop 2 =
          [.GetPVC dc.Namespace (targetPVCName h oldSet newSet),
            .UpdatePVC (markDeferDeleting h.AnnPVCDeferDeleting pvc (d.now w3))] ∧
        (ScaleIn h d (.dmCluster dc) oldSet newSet w).world = w4) ∧
    (∀ w1 mastersInfo w2, dc.Status.Master.Synced = true →
      ¬ ((h.scaleOne oldSet newSet).ordinal > 0 ∧
        dc.Status.Master.Leader.Name = targetMember h dc oldSet newSet) →
      d.DeleteMaster dc (targetMember h dc oldSet newSet) w = (none, w1) →
      d.GetMasters dc w1 = (.ok mastersInfo, w2) →
      existed mastersInfo (targetMember h dc oldSet newSet) = false →
      (∀ e w3, d.GetPVC dc.Namespace (targetPVCName h oldSet newSet) w2 = (.error e, w3) →
        (ScaleIn h d (.dmCluster dc) oldSet newSet w).err ≠ none ∧
        (ScaleIn h d (.dmCluster dc) oldSet newSet w).newSet.Replicas = oldSet.Replicas ∧
        (ScaleIn h d (.dmCluster dc) oldSet newSet w).calls =
          [.DeleteMaster (targetMember h dc oldSet newSet), .GetMasters,
            .GetPVC dc.Namespace (targetPVCName h oldSet newSet)]) ∧
      (∀ pvc w3 e w4,
        d.GetPVC dc.Namespace (targetPVCName h oldSet newSet) w2 = (.ok pvc, w3) →
        d.UpdatePVC dc (markDeferDeleting h.AnnPVCDeferDeleting pvc (d.now w3)) w3
          = (some e, w4) →
        (ScaleIn h d (.dmCluster dc) oldSet newSet w).err = some e ∧
        (ScaleIn h d (.dmCluster dc) oldSet newSet w).newSet.Replicas = oldSet.Replicas)) := by
  unfold targetMember targetPVCName
  constructor
  · unfold ScaleIn
    dsimp only
    intro herr
    split at herr
    · simp at herr
    · split at herr
      · split at herr <;> simp at herr
      · rename_i hs hl
        rw [if_neg hs, if_neg hl]
        split at herr
        · simp at herr
        · split at herr
          · simp at herr
          · split at herr
            · simp at herr
            · rename_i w2 hget hex
              rw [if_neg hex]
              split at herr
              · simp at herr
              · rename_i pvc w3 hpvc
                split at herr
                · simp at herr
                · rename_i w4 hupd
                  exact ⟨w2, pvc, w3, w4, hpvc, hupd, rfl, rfl⟩
  · intro w1 mastersInfo w2 hs hg hdel hget hex
    have hex2 : ¬ existed mastersInfo
        (h.ordinalPodName h.DMMasterMemberType dc.Name (h.scaleOne oldSet newSet).ordinal)
          = true := by simp [hex]
    constructor
    · intro e w3 hpvc
      unfold ScaleIn
      dsimp only
      rw [if_neg (by simp [hs]), if_neg hg, hdel]
      dsimp only
      rw [hget]
      dsimp only
      rw [if_neg hex2, hpvc]
      simp [resetReplicas]
    · intro pvc w3 e w4 hpvc hupd
      unfold ScaleIn
      dsimp only
      rw [if_neg (by simp [hs]), if_neg hg, hdel]
      dsimp only
      rw [hget]
      dsimp only
      rw [if_neg hex2, hpvc]
      dsimp only
      rw [hupd]
      simp [resetReplicas]

/-- Witness of C13: the synced scale-in 3 → 2 commits after the claim was marked. -/
theorem scaleIn_commits_only_after_pvc_marked_witness :
    (ScaleIn specHelpers memDeps (.dmCluster (demoCluster true "dc-dm-master-1"))
        (demoSet 3 ∅) (demoSet 2 ∅) demoWorld).err = none ∧
      ∃ pvc, (ScaleIn specHelpers memDeps (.dmCluster (demoCluster true "dc-dm-master-1"))
        (demoSet 3 ∅) (demoSet 2 ∅) demoWorld).calls.drop 2 =
          [.GetPVC "ns" "dm-master-dc-dm-master-2", .UpdatePVC pvc] :=
  ⟨by decide,
    match (scaleIn_commits_only_after_pvc_marked specHelpers memDeps
      (demoCluster true "dc-dm-master-1") (demoSet 3 ∅) (demoSet 2 ∅) demoWorld).1
      (by decide) with
    | ⟨_, pvc, w3, _, _, _, hcalls, _⟩ =>
      ⟨markDeferDeleting specHelpers.AnnPVCDeferDeleting pvc (memDeps.now w3), hcalls⟩⟩

/-! ## The deferred-deletion annotation -/

/-- Reading a key other than the written one is not affected by `mapSet`. -/
theorem mapGet_mapSet_of_ne (m : List (String × String)) (key k v : String) (hk : k ≠ key) :
    mapGet (mapSet m key v) k = mapGet m k := by
  unfold mapGet mapSet
  have hhead : ((key, v).1 == k) = false := by
    simp only [beq_eq_false_iff_ne, ne_eq]
    exact fun hc => hk hc.symm
  rw [List.find?_cons_of_neg _ (by simp [hhead]), List.find?_filter]
  congr 2
  funext a
  by_cases hak : a.1 = k
  · have ha : ¬ a.1 = key := fun hc => hk (hak.symm.trans hc)
    simp [hak, ha, hk]
  · simp [hak]

/-- After `mapSet` exactly one binding carries the written key. -/
theorem mapSet_one_binding (m : List (String × String)) (key v : String) :
    ((mapSet m key v).filter (fun kv => kv.1 == key)).length = 1 := by
  unfold mapSet
  simp [List.filter_cons, List.filter_filter]

/-- C14: the annotation write of `ScaleIn` is a single-key set-or-overwrite.
Every claim handed to `UpdatePVC` is the claim the lookup returned with its
annotations rewritten by one map write; for every claim (also one whose map
is nil) the written map binds the deferred-deletion key to the timestamp,
binds it exactly once, and reads every other key as the original map did;
writing twice gives the same claim as writing once with the later
timestamp. -/
theorem deferDeleting_write_is_single_key_overwrite {W : Type} (h : Helpers) (d : Deps W)
    (dc : DMCluster) (oldSet newSet : StatefulSet) (w : W) :
    (∀ p, Call.UpdatePVC p ∈ (ScaleIn h d (.dmCluster dc) oldSet newSet w).calls →
      ∃ w2 pvc w3, d.GetPVC dc.Namespace (targetPVCName h oldSet newSet) w2 = (.ok pvc, w3) ∧
        p = markDeferDeleting h.AnnPVCDeferDeleting pvc (d.now w3)) ∧
    (∀ (pvc : PersistentVolumeClaim) (now : String),
      (∃ m, (markDeferDeleting h.AnnPVCDeferDeleting pvc now).Annotations = some m ∧
        mapGet m h.AnnPVCDeferDeleting = some now ∧
        (m.filter (fun kv => kv.1 == h.AnnPVCDeferDeleting)).length = 1 ∧
        ∀ k, k ≠ h.AnnPVCDeferDeleting → mapGet m k = mapGet (pvc.Annotations.getD []) k) ∧
      (markDeferDeleting h.AnnPVCDeferDeleting pvc now).Name = pvc.Name ∧
      (markDeferDeleting h.AnnPVCDeferDeleting pvc now).Namespace = pvc.Namespace) ∧
    (∀ (pvc : PersistentVolumeClaim) (t1 t2 : String),
      markDeferDeleting h.AnnPVCDeferDeleting
          (markDeferDeleting h.AnnPVCDeferDeleting pvc t1) t2 =
        markDeferDeleting h.AnnPVCDeferDeleting pvc t2) := by
  refine ⟨?_, ?_, ?_⟩
  · intro p hp
    unfold targetPVCName
    unfold ScaleIn at hp
    dsimp only at hp
    split at hp
    · simp at hp
    · split at hp
      · split at hp <;> simp at hp
      · split at hp
        · simp at hp
        · split at hp
          · simp at hp
          · split at hp
            · simp at hp
            · rename_i w2 _ _
              split at hp
              · simp at hp
              · rename_i pvc w3 hpvc
                refine ⟨w2, pvc, w3, hpvc, ?_⟩
                split at hp <;> simpa using hp
  · intro pvc now
    refine ⟨⟨_, rfl, ?_, mapSet_one_binding _ _ _, fun k hk => mapGet_mapSet_of_ne _ _ _ _ hk⟩,
      rfl, rfl⟩
    simp [mapGet, mapSet]
  · intro pvc t1 t2
    simp [markDeferDeleting, mapSet, List.filter_filter]

/-! ## Repeating a scale-in that failed at the storage step -/

/-- C15, as stated, fails: on the scale-in 3 → 2 with `UpdatePVC` failing,
`ScaleIn` deletes the member and fails at the storage step; the repeated
call, on the world the first call left and with the same arguments, calls
`DeleteMaster` for the member again (and `GetMasters`) before it retries the
storage step. -/
theorem scaleIn_retry_calls_DeleteMaster_again :
    (ScaleIn specHelpers (faultyDeps { noFaults with UpdatePVC := some (.plain "conflict") })
        (.dmCluster (demoCluster true "dc-dm-master-1")) (demoSet 3 ∅) (demoSet 2 ∅)
        demoWorld).err = some (.plain "conflict") ∧
      (ScaleIn specHelpers (faultyDeps { noFaults with UpdatePVC := some (.plain "conflict") })
        (.dmCluster (demoCluster true "dc-dm-master-1")) (demoSet 3 ∅) (demoSet 2 ∅)
        demoWorld).calls.take 3 =
        [.DeleteMaster "dc-dm-master-2", .GetMasters, .GetPVC "ns" "dm-master-dc-dm-master-2"] ∧
      (ScaleIn specHelpers (faultyDeps { noFaults with UpdatePVC := some (.plain "conflict") })
        (.dmCluster (demoCluster true "dc-dm-master-1")) (demoSet 3 ∅) (demoSet 2 ∅)
        (ScaleIn specHelpers (faultyDeps { noFaults with UpdatePVC := some (.plain "conflict") })
          (.dmCluster (demoCluster true "dc-dm-master-1")) (demoSet 3 ∅) (demoSet 2 ∅)
          demoWorld).world).calls.take 3 =
        [.DeleteMaster "dc-dm-master-2", .GetMasters, .GetPVC "ns" "dm-master-dc-dm-master-2"] := by
  decide

/-- C15, amended: when a `ScaleIn` call (DMCluster meta) has reached the
storage step (its log holds the claim lookup), whether that step then failed
or not, a repeated call with the same meta, `oldSet` and `newSet`, in
whatever world, starts over: its first collaborator call is `DeleteMaster`
for the same member. -/
theorem scaleIn_retry_starts_with_DeleteMaster {W : Type} (h : Helpers) (d : Deps W)
    (dc : DMCluster) (oldSet newSet : StatefulSet) (w : W)
    (hstage : Call.GetPVC dc.Namespace (targetPVCName h oldSet newSet) ∈
      (ScaleIn h d (.dmCluster dc) oldSet newSet w).calls) :
    (ScaleIn h d (.dmCluster dc) oldSet newSet w).calls.head? =
        some (.DeleteMaster (targetMember h dc oldSet newSet)) ∧
      ∀ w', (ScaleIn h d (.dmCluster dc) oldSet newSet w').calls.head? =
        some (.DeleteMaster (targetMember h dc oldSet newSet)) := by
  have hpath : ¬ (!dc.Status.Master.Synced) = true ∧
      ¬ ((h.scaleOne oldSet newSet).ordinal > 0 ∧ dc.Status.Master.Leader.Name =
        h.ordinalPodName h.DMMasterMemberType dc.Name (h.scaleOne oldSet newSet).ordinal) := by
    unfold ScaleIn at hstage
    dsimp only at hstage
    split at hstage
    · simp at hstage
    · split at hstage
      · split at hstage <;> simp at hstage
      · rename_i hs hl
        exact ⟨hs, hl⟩
  have hall : ∀ w', (ScaleIn h d (.dmCluster dc) oldSet newSet w').calls.head? =
      some (.DeleteMaster (targetMember h dc oldSet newSet)) := by
    intro w'
    unfold targetMember
    unfold ScaleIn
    dsimp only
    rw [if_neg hpath.1, if_neg hpath.2]
    repeat' split
    all_goals rfl
  exact ⟨hall w, hall⟩

/-- Witness of C15 amended on the scale-in 3 → 2 with `UpdatePVC` failing. -/
theorem scaleIn_retry_starts_with_DeleteMaster_witness :
    (ScaleIn specHelpers (faultyDeps { noFaults with UpdatePVC := some (.plain "conflict") })
        (.dmCluster (demoCluster true "dc-dm-master-1")) (demoSet 3 ∅) (demoSet 2 ∅)
        demoWorld).err ≠ none ∧
      (ScaleIn specHelpers (faultyDeps { noFaults with UpdatePVC := some (.plain "conflict") })
        (.dmCluster (demoCluster true "dc-dm-master-1")) (demoSet 3 ∅) (demoSet 2 ∅)
        (ScaleIn specHelpers (faultyDeps { noFaults with UpdatePVC := some (.plain "conflict") })
          (.dmCluster (demoCluster true "dc-dm-master-1")) (demoSet 3 ∅) (demoSet 2 ∅)
          demoWorld).world).calls.head? = some (.DeleteMaster "dc-dm-master-2") :=
  ⟨by decide,
    (scaleIn_retry_starts_with_DeleteMaster specHelpers
      (faultyDeps { noFaults with UpdatePVC := some (.plain "conflict") })
      (demoCluster true "dc-dm-master-1") (demoSet 3 ∅) (demoSet 2 ∅) demoWorld
      (by decide)).2 _⟩

/-! ## Scale-out: cleanup of the deferred-deletion claim -/

/-- C16: in `ScaleOut` (DMCluster meta) `deleteDeferDeletingPVC` for the
target ordinal is the one collaborator call and it precedes the commit: a
nil result of `ScaleOut` implies the cleanup returned nil, and the world
after the call is the one the cleanup left; if the cleanup returns an error
`e`, `ScaleOut` returns `e` and the step is not committed (`newSet` keeps
`oldSet`'s replica count). -/
theorem scaleOut_cleans_deferred_pvc_before_commit {W : Type} (h : Helpers) (d : Deps W)
    (dc : DMCluster) (oldSet newSet : StatefulSet) (w : W) :
    (ScaleOut h d (.dmCluster dc) oldSet newSet w).calls =
        [.deleteDeferDeletingPVC h.DMMasterMemberType (h.scaleOne oldSet newSet).ordinal] ∧
      (ScaleOut h d (.dmCluster dc) oldSet newSet w).world =
        (d.deleteDeferDeletingPVC dc h.DMMasterMemberType
          (h.scaleOne oldSet newSet).ordinal w).2 ∧
      ((ScaleOut h d (.dmCluster dc) oldSet newSet w).err = none →
        (d.deleteDeferDeletingPVC dc h.DMMasterMemberType
          (h.scaleOne oldSet newSet).ordinal w).1 = none) ∧
      (∀ e, (d.deleteDeferDeletingPVC dc h.DMMasterMemberType
          (h.scaleOne oldSet newSet).ordinal w).1 = some e →
        (ScaleOut h d (.dmCluster dc) oldSet newSet w).err = some e ∧
        (ScaleOut h d (.dmCluster dc) oldSet newSet w).newSet = resetReplicas newSet oldSet ∧
        (ScaleOut h d (.dmCluster dc) oldSet newSet w).newSet.Replicas = oldSet.Replicas) := by
  unfold ScaleOut
  dsimp only
  rcases hdel : d.deleteDeferDeletingPVC dc h.DMMasterMemberType
      (h.scaleOne oldSet newSet).ordinal w with ⟨_ | e, w1⟩
  · dsimp only
    split <;> simp
  · simp [resetReplicas]

/-- Witness of C16: the cleanup fails on the synced scale-out 3 → 5. -/
theorem scaleOut_cleans_deferred_pvc_before_commit_witness :
    (ScaleOut specHelpers
        (faultyDeps { noFaults with deleteDeferDeletingPVC := some (.plain "forbidden") })
        (.dmCluster (demoCluster true "dc-dm-master-0")) (demoSet 3 ∅) (demoSet 5 ∅)
        demoWorld).err = some (.plain "forbidden") ∧
      (ScaleOut specHelpers
        (faultyDeps { noFaults with deleteDeferDeletingPVC := some (.plain "forbidden") })
        (.dmCluster (demoCluster true "dc-dm-master-0")) (demoSet 3 ∅) (demoSet 5 ∅)
        demoWorld).newSet.Replicas = 3 :=
  ⟨((scaleOut_cleans_deferred_pvc_before_commit specHelpers
      (faultyDeps { noFaults with deleteDeferDeletingPVC := some (.plain "forbidden") })
      (demoCluster true "dc-dm-master-0") (demoSet 3 ∅) (demoSet 5 ∅) demoWorld).2.2.2
      (.plain "forbidden") (by decide)).1,
    ((scaleOut_cleans_deferred_pvc_before_commit specHelpers
      (faultyDeps { noFaults with deleteDeferDeletingPVC := some (.plain "forbidden") })
      (demoCluster true "dc-dm-master-0") (demoSet 3 ∅) (demoSet 5 ∅) demoWorld).2.2.2
      (.plain "forbidden") (by decide)).2.2⟩

/-! ## The ordinal chosen by the calculator -/

/-- C17: for every scale-out step of `scaleOne` as the specification
describes it: if `oldSet`'s delete-slot set is non-empty the target ordinal
is its smallest element and the resulting delete-slot set is the old one
without that ordinal; otherwise the target ordinal is `oldSet`'s replica
count, the next free tail index. -/
theorem scaleOne_scale_out_ordinal (actual desired : StatefulSet)
    (hout : (scaleOne actual desired).scaling > 0) :
    (actual.DeleteSlots.Nonempty →
        (scaleOne actual desired).ordinal ∈ actual.DeleteSlots ∧
        (∀ s ∈ actual.DeleteSlots, (scaleOne actual desired).ordinal ≤ s) ∧
        (scaleOne actual desired).deleteSlots =
          actual.DeleteSlots.erase (scaleOne actual desired).ordinal ∧
        (scaleOne actual desired).ordinal ∉ (scaleOne actual desired).deleteSlots) ∧
    (¬ actual.DeleteSlots.Nonempty →
        (scaleOne actual desired).ordinal = actual.Replicas ∧
        (scaleOne actual desired).deleteSlots = actual.DeleteSlots) := by
  have hgt : desired.Replicas > actual.Replicas := (scaleOne_scaling actual desired).1.1 hout
  unfold scaleOne
  rw [if_pos hgt]
  constructor
  · intro hne
    rw [dif_pos hne]
    dsimp only
    refine ⟨Finset.min'_mem _ _, fun s hs => Finset.min'_le _ s hs, rfl, ?_⟩
    simp
  · intro hne
    rw [dif_neg hne]
    exact ⟨rfl, rfl⟩

/-- Witness of C17: slots `{1, 2}` with replicas 3 → 5 fill ordinal 1. -/
theorem scaleOne_scale_out_ordinal_witness :
    (scaleOne (demoSet 3 {1, 2}) (demoSet 5 {1, 2})).scaling > 0 ∧
      (scaleOne (demoSet 3 {1, 2}) (demoSet 5 {1, 2})).ordinal = 1 ∧
      (scaleOne (demoSet 3 {1, 2}) (demoSet 5 {1, 2})).deleteSlots =
        (demoSet 3 {1, 2}).DeleteSlots.erase (scaleOne (demoSet 3 {1, 2}) (demoSet 5 {1, 2})).ordinal :=
  ⟨by decide, by decide,
    ((scaleOne_scale_out_ordinal (demoSet 3 {1, 2}) (demoSet 5 {1, 2}) (by decide)).1
      (by decide)).2.2.1⟩

/-- C18, as stated, fails on `scaleOne` as the specification describes it:
on Scenario B, replicas 3 → 2 without delete slots, the target is the tail
ordinal 2 and the resulting delete-slot set is empty, not `{2}`. -/
theorem scaleOne_tail_removal_leaves_no_slot :
    (scaleOne (demoSet 3 ∅) (demoSet 2 ∅)).scaling < 0 ∧
      (scaleOne (demoSet 3 ∅) (demoSet 2 ∅)).ordinal = 2 ∧
      (scaleOne (demoSet 3 ∅) (demoSet 2 ∅)).replicas = 2 ∧
      (scaleOne (demoSet 3 ∅) (demoSet 2 ∅)).deleteSlots = ∅ ∧
      (scaleOne (demoSet 3 ∅) (demoSet 2 ∅)).deleteSlots ≠
        insert (scaleOne (demoSet 3 ∅) (demoSet 2 ∅)).ordinal (demoSet 3 ∅).DeleteSlots := by
  decide

/-- C18, amended: for every scale-in step of `scaleOne` as the specification
describes it, on a topology that has a live ordinal: the target ordinal is
the highest live ordinal of `oldSet`; the resulting delete-slot set is
`oldSet`'s with that ordinal added, restricted to the ordinals above 0 and
below the new replica count, so every resulting slot obeys the invariant of
the data model. A target strictly between 0 and the tail is in the
resulting set; a removal of the tail ordinal from a topology whose slots obey
the invariant leaves the delete-slot set unchanged, and the live ordinals of
the resulting topology are the old ones without the target. -/
theorem scaleOne_scale_in_ordinal (actual desired : StatefulSet)
    (hin : (scaleOne actual desired).scaling < 0)
    (hlive : (liveOrdinals actual).Nonempty) :
    (scaleOne actual desired).ordinal ∈ liveOrdinals actual ∧
      (∀ o ∈ liveOrdinals actual, o ≤ (scaleOne actual desired).ordinal) ∧
      (scaleOne actual desired).replicas = actual.Replicas - 1 ∧
      (∀ slot, slot ∈ (scaleOne actual desired).deleteSlots ↔
        (slot = (scaleOne actual desired).ordinal ∨ slot ∈ actual.DeleteSlots) ∧
          0 < slot ∧ slot < (scaleOne actual desired).replicas) ∧
      (0 < (scaleOne actual desired).ordinal →
        (scaleOne actual desired).ordinal < actual.Replicas - 1 →
        (scaleOne actual desired).ordinal ∈ (scaleOne actual desired).deleteSlots) ∧
      ((∀ slot ∈ actual.DeleteSlots, 0 < slot ∧ slot < actual.Replicas) →
        (scaleOne actual desired).ordinal = actual.Replicas - 1 →
        (scaleOne actual desired).deleteSlots = actual.DeleteSlots ∧
        liveOrdinals { actual with Replicas := (scaleOne actual desired).replicas,
                                   DeleteSlots := (scaleOne actual desired).deleteSlots } =
          (liveOrdinals actual).erase (scaleOne actual desired).ordinal) := by
  have hlt : desired.Replicas < actual.Replicas := (scaleOne_scaling actual desired).2.1 hin
  have hngt : ¬ desired.Replicas > actual.Replicas := by omega
  have hstep : scaleOne actual desired =
      { scaling := -1, ordinal := (liveOrdinals actual).max' hlive,
        replicas := actual.Replicas - 1,
        deleteSlots := (insert ((liveOrdinals actual).max' hlive) actual.DeleteSlots).filter
          (fun slot => 0 < slot ∧ slot < actual.Replicas - 1) } := by
    unfold scaleOne
    rw [if_neg hngt, if_pos hlt]
    dsimp only
    rw [dif_pos hlive]
  have hmem : (liveOrdinals actual).max' hlive ∈ liveOrdinals actual := Finset.max'_mem _ _
  have hmax : ∀ o ∈ liveOrdinals actual, o ≤ (liveOrdinals actual).max' hlive :=
    fun o ho => Finset.le_max' _ o ho
  rw [hstep]
  dsimp only
  generalize (liveOrdinals actual).max' hlive = target at hmem hmax
  have hnot : target ∉ actual.DeleteSlots := by
    unfold liveOrdinals at hmem
    exact (Finset.mem_sdiff.mp hmem).2
  refine ⟨hmem, hmax, rfl, ?_, ?_, ?_⟩
  · intro slot
    simp only [Finset.mem_filter, Finset.mem_insert]
  · intro h0 htail
    exact Finset.mem_filter.mpr ⟨Finset.mem_insert_self _ _, h0, htail⟩
  · intro hinv htail
    have hslots : (insert target actual.DeleteSlots).filter
        (fun slot => 0 < slot ∧ slot < actual.Replicas - 1) = actual.DeleteSlots := by
      ext slot
      simp only [Finset.mem_filter, Finset.mem_insert]
      constructor
      · rintro ⟨hslot | hslot, _, hlt1⟩
        · omega
        · exact hslot
      · intro hslot
        have hbound := hinv slot hslot
        have hne : slot ≠ target := fun hc => hnot (hc ▸ hslot)
        exact ⟨Or.inr hslot, hbound.1, by omega⟩
    refine ⟨hslots, ?_⟩
    rw [hslots]
    unfold liveOrdinals
    dsimp only
    ext o
    simp only [Finset.mem_sdiff, Finset.mem_Ico, Finset.mem_erase]
    constructor
    · rintro ⟨⟨h0, h1⟩, hns⟩
      exact ⟨by omega, ⟨h0, by omega⟩, hns⟩
    · rintro ⟨hne, ⟨h0, h1⟩, hns⟩
      exact ⟨⟨h0, by omega⟩, hns⟩

/-- Witness of C18 amended: replicas 4 with slot `{3}`, desired 2: ordinal 2
is removed and becomes the one slot of the resulting topology. -/
theorem scaleOne_scale_in_ordinal_witness :
    (scaleOne (demoSet 4 {3}) (demoSet 2 {3})).scaling < 0 ∧
      (liveOrdinals (demoSet 4 {3})).Nonempty ∧
      (scaleOne (demoSet 4 {3}) (demoSet 2 {3})).ordinal = 2 ∧
      (scaleOne (demoSet 4 {3}) (demoSet 2 {3})).deleteSlots = {2} ∧
      (scaleOne (demoSet 4 {3}) (demoSet 2 {3})).ordinal ∈
        (scaleOne (demoSet 4 {3}) (demoSet 2 {3})).deleteSlots :=
  ⟨by decide, by decide, by decide, by decide,
    (scaleOne_scale_in_ordinal (demoSet 4 {3}) (demoSet 2 {3}) (by decide) (by decide)).2.2.2.2.1
      (by decide) (by decide)⟩

/-! ## Events recorded by the StatefulSet and Job controls -/

namespace controller

/-- C19, as stated, fails: creating a StatefulSet that exists reaches the API
and records no event, and an update reaches the API three times (update,
lister read, update) and records no event either. -/
theorem create_existing_and_update_record_no_event :
    (CreateStatefulSet memKube demoOwner callerSet demoKube).calls =
        [.CreateStatefulSet "ns" callerSet] ∧
      (CreateStatefulSet memKube demoOwner callerSet demoKube).err ≠ none ∧
      (CreateStatefulSet memKube demoOwner callerSet demoKube).events = [] ∧
      (UpdateStatefulSet memKube demoOwner callerSet demoKube).calls.length = 3 ∧
      (UpdateStatefulSet memKube demoOwner callerSet demoKube).err = none ∧
      (UpdateStatefulSet memKube demoOwner callerSet demoKube).events = [] := by
  decide

/-- C19, amended: with an owning object that is a `metav1.Object`, every call
of `DeleteStatefulSet`, `CreateJob` and `DeleteJob` makes one API call and
records exactly one event against the owning object, whatever the API
returned; `CreateStatefulSet` makes one API call and records exactly one
such event unless the API returned an AlreadyExists error, in which case it
records none; `UpdateStatefulSet` records no event. -/
theorem controls_record_events {W : Type} (k : KubeCli W) (instanceLabelKey : String)
    (controller : RuntimeObject) (set : StatefulSet) (job : Job) (w : W) (mo : ObjectMeta)
    (hmeta : controller.meta = some mo) :
    ((CreateStatefulSet k controller set w).calls = [.CreateStatefulSet mo.Namespace set] ∧
      (CreateStatefulSet k controller set w).err = (k.CreateStatefulSet mo.Namespace set w).1 ∧
      (CreateStatefulSet k controller set w).events.length =
        (if IsAlreadyExists (CreateStatefulSet k controller set w).err then 0 else 1) ∧
      ∀ ev ∈ (CreateStatefulSet k controller set w).events, ev.object = controller) ∧
    ((DeleteStatefulSet k controller set w).calls =
        [.DeleteStatefulSet mo.Namespace set.ObjectMeta.Name] ∧
      (DeleteStatefulSet k controller set w).events.length = 1 ∧
      ∀ ev ∈ (DeleteStatefulSet k controller set w).events, ev.object = controller) ∧
    (UpdateStatefulSet k controller set w).events = [] ∧
    ((CreateJob k instanceLabelKey controller job w).calls.length = 1 ∧
      (CreateJob k instanceLabelKey controller job w).events.length = 1 ∧
      ∀ ev ∈ (CreateJob k instanceLabelKey controller job w).events, ev.object = controller) ∧
    ((DeleteJob k instanceLabelKey controller job w).calls.length = 1 ∧
      (DeleteJob k instanceLabelKey controller job w).events.length = 1 ∧
      ∀ ev ∈ (DeleteJob k instanceLabelKey controller job w).events, ev.object = controller) := by
  refine ⟨?_, ?_, ?_, ?_, ?_⟩
  · unfold CreateStatefulSet
    rw [hmeta]
    dsimp only
    split_ifs with hexists
    · simp [hexists]
    · simp [hexists, recordStatefulSetEvent]
      split <;> rfl
  · unfold DeleteStatefulSet
    rw [hmeta]
    dsimp only
    simp [recordStatefulSetEvent]
    split <;> rfl
  · unfold UpdateStatefulSet
    rw [hmeta]
  · unfold CreateJob
    dsimp only
    simp [recordJobEvent]
    split <;> rfl
  · unfold DeleteJob
    dsimp only
    simp [recordJobEvent]
    split <;> rfl

/-- Witness of C19 amended: deleting a StatefulSet that is not stored fails and
records one event. -/
theorem controls_record_events_witness :
    (DeleteStatefulSet memKube demoOwner callerSet ⟨[], []⟩).err ≠ none ∧
      (DeleteStatefulSet memKube demoOwner callerSet ⟨[], []⟩).events.length = 1 :=
  ⟨by decide,
    (controls_record_events memKube "app.kubernetes.io/instance" demoOwner callerSet demoJob
      ⟨[], []⟩ _ rfl).2.1.2.1⟩

/-! ## The object resubmitted by `UpdateStatefulSet` after a failed attempt -/

/-- An update attempt appends its API call for the current `set` to the log. -/
theorem updateAttempt_calls {W : Type} (k : KubeCli W) (ns setName : String)
    (setSpec : StatefulSetSpec) (st : UpdateState W) :
    ∃ rest, (updateAttempt k ns setName setSpec st).2.calls =
      st.calls ++ .UpdateStatefulSet ns st.set :: rest := by
  unfold updateAttempt
  repeat' split
  · exact ⟨[], rfl⟩
  · exact ⟨[.GetStatefulSet ns setName], rfl⟩
  · exact ⟨[.GetStatefulSet ns setName], rfl⟩

/-- The retry loop only appends to the call log. -/
theorem OnError_calls_append {W : Type} (k : KubeCli W) (ns setName : String)
    (setSpec : StatefulSetSpec) (steps : Nat) :
    ∀ (st : UpdateState W) (lastErr : Option GoError),
      ∃ rest, (OnError IsConflict (updateAttempt k ns setName setSpec) steps st lastErr).2.calls =
        st.calls ++ rest := by
  induction steps with
  | zero =>
    intro st lastErr
    exact ⟨[], by simp [OnError]⟩
  | succ n ih =>
    intro st lastErr
    obtain ⟨r1, h1⟩ := updateAttempt_calls k ns setName setSpec st
    rw [OnError]
    rcases hat : updateAttempt k ns setName setSpec st with ⟨_ | err, s1⟩
    · rw [hat] at h1
      exact ⟨_, h1⟩
    · rw [hat] at h1
      dsimp only at h1 ⊢
      split_ifs
      · obtain ⟨r2, h2⟩ := ih s1 (some err)
        rw [h2, h1]
        exact ⟨_, List.append_assoc _ _ _⟩
      · exact ⟨_, h1⟩

/-- A retry loop with at least one step left begins by submitting the
current `set`. -/
theorem OnError_calls_first {W : Type} (k : KubeCli W) (ns setName : String)
    (setSpec : StatefulSetSpec) (steps : Nat) (st : UpdateState W) (lastErr : Option GoError) :
    ∃ rest,
      (OnError IsConflict (updateAttempt k ns setName setSpec) (steps + 1) st lastErr).2.calls =
        st.calls ++ .UpdateStatefulSet ns st.set :: rest := by
  obtain ⟨r1, h1⟩ := updateAttempt_calls k ns setName setSpec st
  rw [OnError]
  rcases hat : updateAttempt k ns setName setSpec st with ⟨_ | err, s1⟩
  · rw [hat] at h1
    exact ⟨_, h1⟩
  · rw [hat] at h1
    dsimp only at h1 ⊢
    split_ifs
    · obtain ⟨r2, h2⟩ := OnError_calls_append k ns setName setSpec steps s1 (some err)
      rw [h2, h1]
      exact ⟨r1 ++ r2, by simp⟩
    · exact ⟨_, h1⟩

/-- C20, as stated, fails: the caller's object is stale, the first attempt
ends in a conflict and the lister returns the stored object; the object
submitted by the second attempt has the lister's metadata and status but the
caller's whole spec, so the service name another client had written is
replaced by the caller's. -/
theorem update_retry_submits_callers_whole_spec :
    (UpdateStatefulSet memKube demoOwner callerSet demoKube).calls =
        [.UpdateStatefulSet "ns" callerSet, .GetStatefulSet "ns" "tc-pd",
          .UpdateStatefulSet "ns"
            { ObjectMeta := storedSet.ObjectMeta, Spec := callerSet.Spec,
              Status := storedSet.Status }] ∧
      callerSet.Spec.ServiceName ≠ storedSet.Spec.ServiceName ∧
      (UpdateStatefulSet memKube demoOwner callerSet demoKube).world.sets.map
        (fun x => x.Spec.ServiceName) = [callerSet.Spec.ServiceName] := by
  decide

/-- C20, amended: in `UpdateStatefulSet`, after a failed update attempt for
which the lister returns the current StatefulSet, the object kept for the
next attempt is the lister's copy with its entire `Spec` replaced by the
caller's original `Spec`: metadata and status are the lister's, every `Spec`
section is the caller's. When the failure is a conflict this is the object
the second attempt submits; when it is not, no further attempt is made. -/
theorem update_retry_resubmits_lister_copy_with_caller_spec {W : Type} (k : KubeCli W)
    (controller : RuntimeObject) (set : StatefulSet) (w w1 w2 : W) (mo : ObjectMeta)
    (us : Option StatefulSet) (e : GoError) (updated : StatefulSet)
    (hmeta : controller.meta = some mo)
    (hupd : k.UpdateStatefulSet mo.Namespace set w = ((us, some e), w1))
    (hget : k.GetStatefulSet mo.Namespace set.ObjectMeta.Name w1 = (.ok updated, w2)) :
    (updateAttempt k mo.Namespace set.ObjectMeta.Name set.Spec ⟨set, none, w, []⟩).2.set =
        { ObjectMeta := updated.ObjectMeta, Spec := set.Spec, Status := updated.Status } ∧
      (IsConflict e = true →
        (UpdateStatefulSet k controller set w).calls.take 3 =
          [.UpdateStatefulSet mo.Namespace set,
            .GetStatefulSet mo.Namespace set.ObjectMeta.Name,
            .UpdateStatefulSet mo.Namespace
              { ObjectMeta := updated.ObjectMeta, Spec := set.Spec, Status := updated.Status }]) ∧
      (IsConflict e = false →
        (UpdateStatefulSet k controller set w).calls =
          [.UpdateStatefulSet mo.Namespace set,
            .GetStatefulSet mo.Namespace set.ObjectMeta.Name] ∧
        (UpdateStatefulSet k controller set w).err = some e) := by
  have hfirst : updateAttempt k mo.Namespace set.ObjectMeta.Name set.Spec ⟨set, none, w, []⟩ =
      (some e, ⟨{ ObjectMeta := updated.ObjectMeta, Spec := set.Spec, Status := updated.Status },
        us, w2, [.UpdateStatefulSet mo.Namespace set,
          .GetStatefulSet mo.Namespace set.ObjectMeta.Name]⟩) := by
    unfold updateAttempt
    dsimp only
    rw [hupd]
    dsimp only
    rw [hget]
    rfl
  refine ⟨by rw [hfirst], ?_, ?_⟩
  · intro hc
    unfold UpdateStatefulSet
    rw [hmeta]
    dsimp only
    unfold RetryOnConflict DefaultBackoffSteps
    rw [OnError, hfirst]
    dsimp only
    rw [if_pos hc]
    obtain ⟨rest, hrest⟩ := OnError_calls_first k mo.Namespace set.ObjectMeta.Name set.Spec 2
      ⟨{ ObjectMeta := updated.ObjectMeta, Spec := set.Spec, Status := updated.Status },
        us, w2, [.UpdateStatefulSet mo.Namespace set,
          .GetStatefulSet mo.Namespace set.ObjectMeta.Name]⟩ (some e)
    rw [hrest]
    rfl
  · intro hc
    unfold UpdateStatefulSet
    rw [hmeta]
    dsimp only
    unfold RetryOnConflict DefaultBackoffSteps
    rw [OnError, hfirst]
    dsimp only
    rw [if_neg (by simp [hc])]
    exact ⟨rfl, rfl⟩

/-- Witness of C20 amended: the stale `callerSet` against the stored object. -/
theorem update_retry_resubmits_lister_copy_with_caller_spec_witness :
    IsConflict (.status "Conflict" ("the object has been modified; please apply your " ++
        "changes to the latest version and try again")) = true ∧
      (UpdateStatefulSet memKube demoOwner callerSet demoKube).calls.take 3 =
        [.UpdateStatefulSet "ns" callerSet, .GetStatefulSet "ns" "tc-pd",
          .UpdateStatefulSet "ns"
            { ObjectMeta := storedSet.ObjectMeta, Spec := callerSet.Spec,
              Status := storedSet.Status }] :=
  ⟨by decide,
    (update_retry_resubmits_lister_copy_with_caller_spec memKube demoOwner callerSet
      demoKube demoKube demoKube _ none _ storedSet rfl rfl rfl).2.1 (by decide)⟩

end controller

/-! ## The fake scaler converges one step per pass -/

/-- An `int32` value is not changed by the wrap-around. -/
theorem wrapInt32_of_int32 (x : Int) (hlo : -2147483648 ≤ x) (hhi : x < 2147483648) :
    wrapInt32 x = x := by
  unfold wrapInt32
  omega

/-- One pass of the fake scaler on `int32` replica counts. -/
theorem fakeScale_replicas (meta : MetaObject) (oldSet newSet : StatefulSet)
    (hr : -2147483648 ≤ oldSet.Replicas ∧ oldSet.Replicas < 2147483648)
    (hd : -2147483648 ≤ newSet.Replicas ∧ newSet.Replicas < 2147483648) :
    (fakeMasterScaler.Scale meta oldSet newSet).2.Replicas =
      if newSet.Replicas > oldSet.Replicas then oldSet.Replicas + 1
      else if newSet.Replicas < oldSet.Replicas then oldSet.Replicas - 1
      else newSet.Replicas := by
  unfold fakeMasterScaler.Scale fakeMasterScaler.ScaleOut fakeMasterScaler.ScaleIn
  split_ifs with h1 h2
  · simp only [setReplicasAndDeleteSlots]
    exact wrapInt32_of_int32 _ (by omega) (by omega)
  · simp only [setReplicasAndDeleteSlots]
    exact wrapInt32_of_int32 _ (by omega) (by omega)
  · rfl

/-- The observed replica count after `n` passes of the reconcile loop. -/
theorem reconcile_replicas (meta : MetaObject) (desired : StatefulSet)
    (hd : -2147483648 ≤ desired.Replicas ∧ desired.Replicas < 2147483648) (n : Nat) :
    ∀ observed : StatefulSet,
      -2147483648 ≤ observed.Replicas ∧ observed.Replicas < 2147483648 →
      (fakeMasterScaler.reconcile meta desired n observed).Replicas =
        if observed.Replicas ≤ desired.Replicas then min (observed.Replicas + n) desired.Replicas
        else max (observed.Replicas - n) desired.Replicas := by
  induction n with
  | zero =>
    intro observed _
    unfold fakeMasterScaler.reconcile
    split_ifs <;> simp <;> omega
  | succ n ih =>
    intro observed hr
    unfold fakeMasterScaler.reconcile
    have hstep := fakeScale_replicas meta observed desired hr hd
    have hrange : -2147483648 ≤ (fakeMasterScaler.Scale meta observed desired).2.Replicas ∧
        (fakeMasterScaler.Scale meta observed desired).2.Replicas < 2147483648 := by
      rw [hstep]
      split_ifs <;> omega
    rw [ih _ hrange, hstep]
    push_cast
    split_ifs <;> omega

/-- C21: for the fake scaler and `int32` replica counts, observed `r` and
desired `d`: one `Scale` call sets `newSet`'s replica count to `r + 1` if
`d > r`, to `r - 1` if `d < r`, and leaves it at `d` if `d = r`. Hence the
reconcile loop, which persists the result as the next observed set and
supplies the same desired set again, has moved by exactly `n` after `n` passes
while `n ≤ |d - r|` (so it has not reached `d` before pass `|d - r|`), is at
`d` from pass `|d - r|` on, and every later call returns `newSet` as
supplied. -/
theorem fake_scale_converges_one_step_per_pass (meta : MetaObject)
    (oldSet newSet : StatefulSet)
    (hr : -2147483648 ≤ oldSet.Replicas ∧ oldSet.Replicas < 2147483648)
    (hd : -2147483648 ≤ newSet.Replicas ∧ newSet.Replicas < 2147483648) :
    (fakeMasterScaler.Scale meta oldSet newSet).2.Replicas =
        (if newSet.Replicas > oldSet.Replicas then oldSet.Replicas + 1
         else if newSet.Replicas < oldSet.Replicas then oldSet.Replicas - 1
         else newSet.Replicas) ∧
      (∀ n : Nat, n ≤ (newSet.Replicas - oldSet.Replicas).natAbs →
        (fakeMasterScaler.reconcile meta newSet n oldSet).Replicas =
          if oldSet.Replicas ≤ newSet.Replicas then oldSet.Replicas + n
          else oldSet.Replicas - n) ∧
      (∀ n : Nat, n < (newSet.Replicas - oldSet.Replicas).natAbs →
        (fakeMasterScaler.reconcile meta newSet n oldSet).Replicas ≠ newSet.Replicas) ∧
      (∀ n : Nat, (newSet.Replicas - oldSet.Replicas).natAbs ≤ n →
        (fakeMasterScaler.reconcile meta newSet n oldSet).Replicas = newSet.Replicas ∧
        fakeMasterScaler.Scale meta (fakeMasterScaler.reconcile meta newSet n oldSet) newSet =
          (none, newSet)) := by
  refine ⟨fakeScale_replicas meta oldSet newSet hr hd, ?_, ?_, ?_⟩
  · intro n hn
    rw [reconcile_replicas meta newSet hd n oldSet hr]
    split_ifs <;> omega
  · intro n hn
    rw [reconcile_replicas meta newSet hd n oldSet hr]
    split_ifs <;> omega
  · intro n hn
    have hrep : (fakeMasterScaler.reconcile meta newSet n oldSet).Replicas = newSet.Replicas := by
      rw [reconcile_replicas meta newSet hd n oldSet hr]
      split_ifs <;> omega
    refine ⟨hrep, ?_⟩
    unfold fakeMasterScaler.Scale
    rw [if_neg (by omega), if_neg (by omega)]

/-- Witness of C21: observed 3, desired 5: two passes reach 5, the third is a no-op. -/
theorem fake_scale_converges_one_step_per_pass_witness :
    (fakeMasterScaler.reconcile (.other "ns" "tc") (demoSet 5 ∅) 1 (demoSet 3 ∅)).Replicas = 4 ∧
      (fakeMasterScaler.reconcile (.other "ns" "tc") (demoSet 5 ∅) 2 (demoSet 3 ∅)).Replicas = 5 ∧
      (fakeMasterScaler.reconcile (.other "ns" "tc") (demoSet 5 ∅) 3 (demoSet 3 ∅)).Replicas =
        (demoSet 5 ∅).Replicas :=
  ⟨by decide, by decide,
    ((fake_scale_converges_one_step_per_pass (.other "ns" "tc") (demoSet 3 ∅) (demoSet 5 ∅)
      (by decide) (by decide)).2.2.2 3 (by decide)).1⟩

/-! ## Scale-in: the successful run -/

/-- C22: with a synced DMCluster whose leader is not the target member, on a
run of `ScaleIn` in which `DeleteMaster`, `GetMasters`, the claim lookup and
`UpdatePVC` all succeed and the member is absent from the list, the
collaborator calls are, in this order and once each, `DeleteMaster(member)`,
`GetMasters`, the claim lookup and `UpdatePVC` of the marked claim; there is
no `EvictLeader` call, the result is nil and the step is committed. -/
theorem scaleIn_success_call_order {W : Type} (h : Helpers) (d : Deps W)
    (dc : DMCluster) (oldSet newSet : StatefulSet) (w w1 w2 w3 w4 : W)
    (mastersInfo : List MastersInfo) (pvc : PersistentVolumeClaim)
    (hs : dc.Status.Master.Synced = true)
    (hleader : dc.Status.Master.Leader.Name ≠ targetMember h dc oldSet newSet)
    (hdel : d.DeleteMaster dc (targetMember h dc oldSet newSet) w = (none, w1))
    (hget : d.GetMasters dc w1 = (.ok mastersInfo, w2))
    (habsent : ∀ m ∈ mastersInfo, m.Name ≠ targetMember h dc oldSet newSet)
    (hpvc : d.GetPVC dc.Namespace (targetPVCName h oldSet newSet) w2 = (.ok pvc, w3))
    (hupd : d.UpdatePVC dc (markDeferDeleting h.AnnPVCDeferDeleting pvc (d.now w3)) w3
      = (none, w4)) :
    ScaleIn h d (.dmCluster dc) oldSet newSet w =
      ⟨none,
        setReplicasAndDeleteSlots (resetReplicas newSet oldSet) (h.scaleOne oldSet newSet).replicas
          (h.scaleOne oldSet newSet).deleteSlots,
        w4,
        [.DeleteMaster (targetMember h dc oldSet newSet), .GetMasters,
          .GetPVC dc.Namespace (targetPVCName h oldSet newSet),
          .UpdatePVC (markDeferDeleting h.AnnPVCDeferDeleting pvc (d.now w3))]⟩ := by
  unfold targetMember at hleader hdel habsent ⊢
  unfold targetPVCName at hpvc ⊢
  have hex : ¬ existed mastersInfo
      (h.ordinalPodName h.DMMasterMemberType dc.Name (h.scaleOne oldSet newSet).ordinal)
        = true := by
    simp only [existed, List.any_eq_true, beq_iff_eq, not_exists, not_and]
    exact habsent
  unfold ScaleIn
  dsimp only
  rw [if_neg (by simp [hs]), if_neg (fun hc => hleader hc.2), hdel]
  dsimp only
  rw [hget]
  dsimp only
  rw [if_neg hex, hpvc]
  dsimp only
  rw [hupd]

/-- Witness of C22: Scenario B, replicas 3 → 2 with `dc-dm-master-1` leader. -/
theorem scaleIn_success_call_order_witness :
    (ScaleIn specHelpers memDeps (.dmCluster (demoCluster true "dc-dm-master-1"))
        (demoSet 3 ∅) (demoSet 2 ∅) demoWorld).err = none ∧
      (ScaleIn specHelpers memDeps (.dmCluster (demoCluster true "dc-dm-master-1"))
        (demoSet 3 ∅) (demoSet 2 ∅) demoWorld).newSet.Replicas = 2 ∧
      (ScaleIn specHelpers memDeps (.dmCluster (demoCluster true "dc-dm-master-1"))
        (demoSet 3 ∅) (demoSet 2 ∅) demoWorld).calls.length = 4 :=
  ⟨congrArg Run.err
      (scaleIn_success_call_order specHelpers memDeps (demoCluster true "dc-dm-master-1")
        (demoSet 3 ∅) (demoSet 2 ∅) demoWorld _ _ _ _ _ _ (by decide) (by decide) rfl rfl
        (by decide) rfl rfl),
    by decide, by decide⟩

/-! ## A meta object that is not a DMCluster -/

/-- C25: when the meta object is not a `*v1alpha1.DMCluster`, `ScaleOut` and
`ScaleIn` return nil, call no collaborator and leave `newSet` and the world
as supplied: the replica count is neither reset to `oldSet`'s nor moved by
one step. So does `Scale`, whatever direction `scaleOne` reports. -/
theorem non_dmcluster_meta_is_silently_accepted {W : Type} (h : Helpers) (d : Deps W)
    (ns name : String) (oldSet newSet : StatefulSet) (w : W) :
    ScaleOut h d (.other ns name) oldSet newSet w = ⟨none, newSet, w, []⟩ ∧
      ScaleIn h d (.other ns name) oldSet newSet w = ⟨none, newSet, w, []⟩ ∧
      Scale h d (.other ns name) oldSet newSet w = ⟨none, newSet, w, []⟩ := by
  refine ⟨rfl, rfl, ?_⟩
  unfold Scale
  dsimp only
  split_ifs <;> rfl

/-! ## Events: type, reason and message -/

namespace controller

/-- C23: `recordStatefulSetEvent` and `recordJobEvent` emit an event of type
Normal with reason `Successful` followed by the title-cased verb exactly when
the error is nil, and otherwise an event of type Warning with reason `Failed`
followed by the title-cased verb, whose message ends with the error's text.
The verbs in use title-case to `Create` and `Delete`. -/
theorem event_type_and_reason_follow_the_error (instanceLabelKey verb kind name : String)
    (object : RuntimeObject) (set : StatefulSet) (job : Job) (err : Option GoError) :
    ((recordStatefulSetEvent verb kind name object set err).eventtype = "Normal" ↔ err = none) ∧
    (err = none →
      (recordStatefulSetEvent verb kind name object set err).eventtype = "Normal" ∧
      (recordStatefulSetEvent verb kind name object set err).reason = "Successful" ++ Title verb) ∧
    (∀ e, err = some e →
      (recordStatefulSetEvent verb kind name object set err).eventtype = "Warning" ∧
      (recordStatefulSetEvent verb kind name object set err).reason = "Failed" ++ Title verb ∧
      ∃ pre, (recordStatefulSetEvent verb kind name object set err).message = pre ++ e.Error) ∧
    ((recordJobEvent instanceLabelKey verb object job err).eventtype = "Normal" ↔ err = none) ∧
    (err = none →
      (recordJobEvent instanceLabelKey verb object job err).eventtype = "Normal" ∧
      (recordJobEvent instanceLabelKey verb object job err).reason = "Successful" ++ Title verb) ∧
    (∀ e, err = some e →
      (recordJobEvent instanceLabelKey verb object job err).eventtype = "Warning" ∧
      (recordJobEvent instanceLabelKey verb object job err).reason = "Failed" ++ Title verb ∧
      ∃ pre, (recordJobEvent instanceLabelKey verb object job err).message = pre ++ e.Error) ∧
    Title "create" = "Create" ∧ Title "delete" = "Delete" := by
  have hne : EventTypeWarning ≠ "Normal" := by decide
  refine ⟨?_, ?_, ?_, ?_, ?_, ?_, by decide, by decide⟩
  · cases err with
    | none => exact ⟨fun _ => rfl, fun _ => rfl⟩
    | some e => exact ⟨fun hc => absurd hc hne, fun hc => by simp at hc⟩
  · intro hnil
    subst hnil
    exact ⟨rfl, rfl⟩
  · intro e he
    subst he
    exact ⟨rfl, rfl, ⟨_, rfl⟩⟩
  · cases err with
    | none => exact ⟨fun _ => rfl, fun _ => rfl⟩
    | some e => exact ⟨fun hc => absurd hc hne, fun hc => by simp at hc⟩
  · intro hnil
    subst hnil
    exact ⟨rfl, rfl⟩
  · intro e he
    subst he
    exact ⟨rfl, rfl, ⟨_, rfl⟩⟩

/-- Witness of C23: the event of a failed delete. -/
theorem event_type_and_reason_follow_the_error_witness :
    (recordStatefulSetEvent "delete" "TidbCluster" "tc" demoOwner storedSet
        (some (.plain "timeout"))).eventtype = "Warning" ∧
      (recordStatefulSetEvent "delete" "TidbCluster" "tc" demoOwner storedSet
        (some (.plain "timeout"))).reason = "Failed" ++ Title "delete" :=
  ⟨((event_type_and_reason_follow_the_error "app.kubernetes.io/instance" "delete" "TidbCluster"
      "tc" demoOwner storedSet demoJob (some (.plain "timeout"))).2.2.1 _ rfl).1,
    ((event_type_and_reason_follow_the_error "app.kubernetes.io/instance" "delete" "TidbCluster"
      "tc" demoOwner storedSet demoJob (some (.plain "timeout"))).2.2.1 _ rfl).2.1⟩

/-! ## The fake control does not delete -/

/-- C24 on the code: a set added through the fake `CreateStatefulSet` is still
in `SetIndexer` after the fake `DeleteStatefulSet` returned nil; the call
leaves the control as it was. -/
theorem fake_delete_leaves_set_in_indexer :
    (FakeStatefulSetControl.CreateStatefulSet countingTracker newFake demoOwner storedSet).1
        = none ∧
      (FakeStatefulSetControl.DeleteStatefulSet
        (FakeStatefulSetControl.CreateStatefulSet countingTracker newFake demoOwner storedSet).2
        demoOwner storedSet).1 = none ∧
      storedSet ∈ (FakeStatefulSetControl.DeleteStatefulSet
        (FakeStatefulSetControl.CreateStatefulSet countingTracker newFake demoOwner storedSet).2
        demoOwner storedSet).2.SetIndexer := by
  decide

end controller

/-! ## Pod status shown by the end-to-end tests -/

namespace tests

/-- C26: for every pod whose `DeletionTimestamp` is set, `GetPodStatus`
returns `Unknown` when `Status.Reason` equals `NodeUnreachablePodReason` and
`Terminating` otherwise, whatever the phase and the container statuses. -/
theorem deleted_pod_is_unknown_or_terminating (nodeUnreachablePodReason : String) (pod : Pod)
    (hdel : pod.DeletionTimestamp ≠ none) :
    GetPodStatus nodeUnreachablePodReason pod =
      if pod.Status.Reason = nodeUnreachablePodReason then "Unknown" else "Terminating" := by
  have hsome : pod.DeletionTimestamp.isSome = true := by
    cases hd : pod.DeletionTimestamp with
    | none => exact absurd hd hdel
    | some t => rfl
  unfold GetPodStatus
  dsimp only
  by_cases hr : pod.Status.Reason = nodeUnreachablePodReason
  · simp [hsome, hr]
  · simp [hsome, hr]

/-- Witness of C26: `demoPod` is being deleted and its reason is empty. -/
theorem deleted_pod_is_unknown_or_terminating_witness :
    demoPod.DeletionTimestamp ≠ none ∧ GetPodStatus "NodeLost" demoPod = "Terminating" :=
  ⟨by decide,
    (deleted_pod_is_unknown_or_terminating "NodeLost" demoPod (by decide)).trans (by decide)⟩

/-- The first loop skips init containers that terminated with exit code 0. -/
theorem initReason_skip (pod : Pod) (rest : List ContainerStatus) :
    ∀ (pre : List ContainerStatus) (i : Nat), (∀ x ∈ pre, initSucceeded x = true) →
      initReason pod i (pre ++ rest) = initReason pod (i + pre.length) rest := by
  intro pre
  induction pre with
  | nil => intro i _; rfl
  | cons a t ih =>
    intro i hall
    have ha : initSucceeded a = true := hall a (List.mem_cons_self _ _)
    have ht : ∀ x ∈ t, initSucceeded x = true := fun x hx => hall x (List.mem_cons_of_mem _ hx)
    unfold initSucceeded at ha
    rw [List.cons_append, initReason]
    split at ha
    · rename_i terminated hterm
      simp only [hterm, ha, if_true]
      rw [ih (i + 1) ht, List.length_cons]
      congr 1
      omega
    · simp at ha

/-- The first loop stops at an init container that did not terminate with
exit code 0, whatever follows it. -/
theorem initReason_stop (pod : Pod) (i : Nat) (c : ContainerStatus) (post : List ContainerStatus)
    (hc : initSucceeded c = false) :
    initReason pod i (c :: post) = initReason pod i [c] ∧
      ∃ r, initReason pod i [c] = some ("Init:" ++ r) := by
  have hsig : "Init:Signal:" = "Init:" ++ "Signal:" := by decide
  have hexit : "Init:ExitCode:" = "Init:" ++ "ExitCode:" := by decide
  unfold initSucceeded at hc
  rw [initReason, initReason]
  split at hc
  · rename_i terminated hterm
    simp only [hterm, hc]
    refine ⟨by simp, ?_⟩
    simp only [Bool.false_eq_true, if_false]
    split_ifs
    · exact ⟨"Signal:" ++ toString terminated.Signal, by rw [hsig, String.append_assoc]⟩
    · exact ⟨"ExitCode:" ++ toString terminated.ExitCode, by rw [hexit, String.append_assoc]⟩
    · exact ⟨_, rfl⟩
  · rename_i hterm
    simp only [hterm]
    refine ⟨by simp, ?_⟩
    split
    · split_ifs
      · exact ⟨_, rfl⟩
      · exact ⟨_, by rw [String.append_assoc, String.append_assoc]⟩
    · exact ⟨_, by rw [String.append_assoc, String.append_assoc]⟩

/-- A string has length 0 exactly when it is the empty string. -/
theorem length_eq_zero_iff (s : String) : s.length = 0 ↔ s = "" := by
  constructor
  · intro h
    apply String.ext
    exact List.length_eq_zero.mp h
  · intro h
    rw [h]
    rfl

/-- The first loop reads the pod only through `len(pod.Spec.InitContainers)`. -/
theorem initReason_congr (pod pod' : Pod) (hinit : pod'.InitContainers = pod.InitContainers) :
    ∀ (l : List ContainerStatus) (i : Nat), initReason pod' i l = initReason pod i l := by
  intro l
  induction l with
  | nil => intro i; rfl
  | cons a t ih =>
    intro i
    rw [initReason, initReason, hinit, ih (i + 1)]

/-- With no deletion timestamp and an init container that has not terminated
with exit code 0, the status is what the first loop sets for the first such
container. -/
theorem GetPodStatus_initializing (nodeUnreachablePodReason : String) (pod : Pod)
    (pre post : List ContainerStatus) (c : ContainerStatus)
    (hdel : pod.DeletionTimestamp = none)
    (hsplit : pod.Status.InitContainerStatuses = pre ++ c :: post)
    (hpre : ∀ x ∈ pre, initSucceeded x = true)
    (hc : initSucceeded c = false) :
    some (GetPodStatus nodeUnreachablePodReason pod) = initReason pod pre.length [c] := by
  obtain ⟨hstop, r, hr⟩ := initReason_stop pod pre.length c post hc
  have hloop : initReason pod 0 pod.Status.InitContainerStatuses = some ("Init:" ++ r) := by
    rw [hsplit, initReason_skip pod (c :: post) pre 0 hpre, Nat.zero_add, hstop, hr]
  unfold GetPodStatus
  dsimp only
  rw [hloop, hdel, hr]
  simp

/-- C27: for every pod with no deletion timestamp whose
`InitContainerStatuses` hold an entry that is not terminated with exit code
0, let `c` be the first such entry and `i` its index. `GetPodStatus` returns
a string beginning with `Init:` fixed by `c` alone: `Init:` and its
terminated reason; with an empty terminated reason `Init:Signal:n` for a
non-zero signal and `Init:ExitCode:n` otherwise; when it is not terminated,
`Init:` and its waiting reason if that is non-empty and not
`PodInitializing`; otherwise `Init:i/len(Spec.InitContainers)`. The later
init entries and the regular `ContainerStatuses` do not affect the result. -/
theorem init_status_comes_from_first_unfinished_init_container
    (nodeUnreachablePodReason : String) (pod : Pod)
    (pre post : List ContainerStatus) (c : ContainerStatus)
    (hdel : pod.DeletionTimestamp = none)
    (hsplit : pod.Status.InitContainerStatuses = pre ++ c :: post)
    (hpre : ∀ x ∈ pre, initSucceeded x = true)
    (hc : initSucceeded c = false) :
    (∃ r, GetPodStatus nodeUnreachablePodReason pod = "Init:" ++ r) ∧
    (∀ t, c.State.Terminated = some t → t.Reason ≠ "" →
      GetPodStatus nodeUnreachablePodReason pod = "Init:" ++ t.Reason) ∧
    (∀ t, c.State.Terminated = some t → t.Reason = "" → t.Signal ≠ 0 →
      GetPodStatus nodeUnreachablePodReason pod = "Init:Signal:" ++ toString t.Signal) ∧
    (∀ t, c.State.Terminated = some t → t.Reason = "" → t.Signal = 0 →
      GetPodStatus nodeUnreachablePodReason pod = "Init:ExitCode:" ++ toString t.ExitCode) ∧
    (∀ wt, c.State.Terminated = none → c.State.Waiting = some wt → wt.Reason ≠ "" →
      wt.Reason ≠ "PodInitializing" →
      GetPodStatus nodeUnreachablePodReason pod = "Init:" ++ wt.Reason) ∧
    (c.State.Terminated = none →
      (∀ wt, c.State.Waiting = some wt → wt.Reason = "" ∨ wt.Reason = "PodInitializing") →
      GetPodStatus nodeUnreachablePodReason pod =
        "Init:" ++ toString pre.length ++ "/" ++ toString pod.InitContainers.length) ∧
    (∀ post' containerStatuses,
      GetPodStatus nodeUnreachablePodReason
          { pod with Status := { pod.Status with InitContainerStatuses := pre ++ c :: post',
                                                 ContainerStatuses := containerStatuses } } =
        GetPodStatus nodeUnreachablePodReason pod) := by
  have hkey := GetPodStatus_initializing nodeUnreachablePodReason pod pre post c hdel hsplit hpre hc
  have hexit : ∀ t, c.State.Terminated = some t → (t.ExitCode == 0) = false := by
    intro t ht
    unfold initSucceeded at hc
    rw [ht] at hc
    exact hc
  refine ⟨?_, ?_, ?_, ?_, ?_, ?_, ?_⟩
  · obtain ⟨_, r, hr⟩ := initReason_stop pod pre.length c post hc
    rw [hr] at hkey
    exact ⟨r, Option.some.inj hkey⟩
  · intro t ht hreason
    have hlen : ¬ t.Reason.length = 0 := fun h0 => hreason ((length_eq_zero_iff _).mp h0)
    apply Option.some.inj
    rw [hkey, initReason]
    simp [ht, hexit t ht, hlen]
  · intro t ht hreason hsignal
    have hlen : t.Reason.length = 0 := (length_eq_zero_iff _).mpr hreason
    apply Option.some.inj
    rw [hkey, initReason]
    simp [ht, hexit t ht, hlen, hsignal]
  · intro t ht hreason hsignal
    have hlen : t.Reason.length = 0 := (length_eq_zero_iff _).mpr hreason
    apply Option.some.inj
    rw [hkey, initReason]
    simp [ht, hexit t ht, hlen, hsignal]
  · intro wt ht hw hreason hnot
    have hlen : 0 < wt.Reason.length :=
      Nat.pos_of_ne_zero (fun h0 => hreason ((length_eq_zero_iff _).mp h0))
    apply Option.some.inj
    rw [hkey, initReason]
    simp [ht, hw, hlen, hnot]
  · intro ht hw
    apply Option.some.inj
    rw [hkey, initReason]
    simp only [ht]
    split
    · rename_i waiting hwaiting
      rcases hw waiting hwaiting with h0 | hpi
      · simp [h0]
      · simp [hpi]
    · rfl
  · intro post' containerStatuses
    apply Option.some.inj
    rw [hkey]
    exact (GetPodStatus_initializing nodeUnreachablePodReason
      { pod with Status := { pod.Status with InitContainerStatuses := pre ++ c :: post',
                                             ContainerStatuses := containerStatuses } }
      pre post' c hdel rfl hpre hc).trans
        (initReason_congr pod
          { pod with Status := { pod.Status with InitContainerStatuses := pre ++ c :: post',
                                                 ContainerStatuses := containerStatuses } }
          rfl [c] pre.length)

/-- Witness of C27: the second init container is waiting with `ImagePullBackOff`. -/
theorem init_status_comes_from_first_unfinished_init_container_witness :
    initSucceeded ⟨"b", ⟨some ⟨"ImagePullBackOff"⟩, false, none⟩⟩ = false ∧
      GetPodStatus "NodeLost"
          { Name := "tc-pd-0", DeletionTimestamp := none, InitContainers := ["a", "b"],
            Status :=
              { Phase := "Pending", Reason := "",
                InitContainerStatuses :=
                  [⟨"a", ⟨none, false, some ⟨0, 0, "Completed"⟩⟩⟩] ++
                    ⟨"b", ⟨some ⟨"ImagePullBackOff"⟩, false, none⟩⟩ :: [],
                ContainerStatuses := [⟨"pd", ⟨some ⟨"PodInitializing"⟩, false, none⟩⟩] } } =
        "Init:" ++ "ImagePullBackOff" :=
  ⟨by decide,
    (init_status_comes_from_first_unfinished_init_container "NodeLost" _
      [⟨"a", ⟨none, false, some ⟨0, 0, "Completed"⟩⟩⟩] []
      ⟨"b", ⟨some ⟨"ImagePullBackOff"⟩, false, none⟩⟩ rfl rfl (by decide) (by decide)).2.2.2.2.1
      ⟨"ImagePullBackOff"⟩ rfl rfl (by decide) (by decide)⟩

/-- The first loop leaves `initializing` false when every init container
terminated with exit code 0. -/
theorem initReason_none (pod : Pod) (l : List ContainerStatus) (i : Nat)
    (hall : ∀ x ∈ l, initSucceeded x = true) : initReason pod i l = none := by
  have h := initReason_skip pod [] l i hall
  rw [List.append_nil] at h
  rw [h]
  rfl

/-- A container that is neither waiting with a reason nor terminated leaves
the reason as it is. -/
theorem containerReason_of_not_reports (c : ContainerStatus) (reason : String)
    (hc : reports c = false) : containerReason c reason = reason := by
  unfold reports at hc
  rw [Bool.or_eq_false_iff] at hc
  obtain ⟨hw, ht⟩ := hc
  have hnone : c.State.Terminated = none := by
    cases hterm : c.State.Terminated with
    | none => rfl
    | some t => rw [hterm] at ht; simp at ht
  unfold containerReason terminatedReason
  rw [hnone]
  split
  · rename_i waiting hwaiting
    rw [hwaiting] at hw
    dsimp only at hw
    simp only [hw, Bool.false_eq_true, if_false]
  · rfl

/-- The second loop passes over containers that do not report. -/
theorem foldr_containerReason_skip (rest : List ContainerStatus) (reason : String) :
    ∀ pre : List ContainerStatus, (∀ x ∈ pre, reports x = false) →
      (pre ++ rest).foldr containerReason reason = rest.foldr containerReason reason := by
  intro pre
  induction pre with
  | nil => intro _; rfl
  | cons a t ih =>
    intro hall
    rw [List.cons_append, List.foldr_cons,
      containerReason_of_not_reports a _ (hall a (List.mem_cons_self _ _)),
      ih (fun x hx => hall x (List.mem_cons_of_mem _ hx))]

/-- With no deletion timestamp and all init containers done, the status is
the result of the second loop. -/
theorem GetPodStatus_running (nodeUnreachablePodReason : String) (pod : Pod)
    (hdel : pod.DeletionTimestamp = none)
    (hinit : ∀ x ∈ pod.Status.InitContainerStatuses, initSucceeded x = true) :
    GetPodStatus nodeUnreachablePodReason pod =
      pod.Status.ContainerStatuses.foldr containerReason
        (if pod.Status.Reason != "" then pod.Status.Reason else pod.Status.Phase) := by
  unfold GetPodStatus
  dsimp only
  rw [initReason_none pod _ 0 hinit, hdel]
  simp

/-- C28: for every pod with no deletion timestamp whose init-container
statuses are all terminated with exit code 0 (or absent): if `c` is the
lowest-indexed entry of `ContainerStatuses` that is waiting with a non-empty
reason or terminated, `GetPodStatus` returns its waiting reason when it has a
non-empty one, else its terminated reason when non-empty, else `Signal:n`
for a non-zero signal, else `ExitCode:n`; when no entry qualifies it returns
`Status.Reason` if non-empty and `Status.Phase` otherwise. -/
theorem status_comes_from_first_reporting_container (nodeUnreachablePodReason : String)
    (pod : Pod) (hdel : pod.DeletionTimestamp = none)
    (hinit : ∀ x ∈ pod.Status.InitContainerStatuses, initSucceeded x = true) :
    (∀ pre c post, pod.Status.ContainerStatuses = pre ++ c :: post →
      (∀ x ∈ pre, reports x = false) → reports c = true →
      (∀ wt, c.State.Waiting = some wt → wt.Reason ≠ "" →
        GetPodStatus nodeUnreachablePodReason pod = wt.Reason) ∧
      (∀ t, (∀ wt, c.State.Waiting = some wt → wt.Reason = "") →
        c.State.Terminated = some t → t.Reason ≠ "" →
        GetPodStatus nodeUnreachablePodReason pod = t.Reason) ∧
      (∀ t, (∀ wt, c.State.Waiting = some wt → wt.Reason = "") →
        c.State.Terminated = some t → t.Reason = "" → t.Signal ≠ 0 →
        GetPodStatus nodeUnreachablePodReason pod = "Signal:" ++ toString t.Signal) ∧
      (∀ t, (∀ wt, c.State.Waiting = some wt → wt.Reason = "") →
        c.State.Terminated = some t → t.Reason = "" → t.Signal = 0 →
        GetPodStatus nodeUnreachablePodReason pod = "ExitCode:" ++ toString t.ExitCode)) ∧
    ((∀ x ∈ pod.Status.ContainerStatuses, reports x = false) →
      GetPodStatus nodeUnreachablePodReason pod =
        if pod.Status.Reason ≠ "" then pod.Status.Reason else pod.Status.Phase) := by
  have hrun := GetPodStatus_running nodeUnreachablePodReason pod hdel hinit
  constructor
  · intro pre c post hsplit hpre _
    rw [hrun, hsplit, foldr_containerReason_skip _ _ pre hpre, List.foldr_cons]
    have hnowait : (∀ wt, c.State.Waiting = some wt → wt.Reason = "") →
        ∀ r, containerReason c r = terminatedReason c r := by
      intro hw r
      unfold containerReason
      split
      · rename_i waiting hwaiting
        simp [hw waiting hwaiting]
      · rfl
    refine ⟨?_, ?_, ?_, ?_⟩
    · intro wt hw hreason
      unfold containerReason
      simp [hw, hreason]
    · intro t hw ht hreason
      rw [hnowait hw]
      unfold terminatedReason
      simp [ht, hreason]
    · intro t hw ht hreason hsignal
      rw [hnowait hw]
      unfold terminatedReason
      simp [ht, hreason, hsignal]
    · intro t hw ht hreason hsignal
      rw [hnowait hw]
      unfold terminatedReason
      simp [ht, hreason, hsignal]
  · intro hnone
    have h := foldr_containerReason_skip []
      (if pod.Status.Reason != "" then pod.Status.Reason else pod.Status.Phase)
      pod.Status.ContainerStatuses hnone
    rw [List.append_nil] at h
    rw [hrun, h]
    simp

/-- Witness of C28: the first container runs, the second waits in `CrashLoopBackOff`. -/
theorem status_comes_from_first_reporting_container_witness :
    GetPodStatus "NodeLost"
        { Name := "tc-tikv-0", DeletionTimestamp := none, InitContainers := [],
          Status :=
            { Phase := "Running", Reason := "", InitContainerStatuses := [],
              ContainerStatuses :=
                [⟨"a", ⟨none, true, none⟩⟩] ++ ⟨"b", ⟨some ⟨"CrashLoopBackOff"⟩, false, none⟩⟩ ::
                  [⟨"c", ⟨none, false, some ⟨137, 9, ""⟩⟩⟩] } } = "CrashLoopBackOff" :=
  ((status_comes_from_first_reporting_container "NodeLost" _ rfl (by decide)).1
    [⟨"a", ⟨none, true, none⟩⟩] ⟨"b", ⟨some ⟨"CrashLoopBackOff"⟩, false, none⟩⟩
    [⟨"c", ⟨none, false, some ⟨137, 9, ""⟩⟩⟩] rfl (by decide) (by decide)).1
    ⟨"CrashLoopBackOff"⟩ rfl (by decide)

/-! ## PD failover check -/

/-- C29: `pdFailover(pod, tc)` is true if and only if some entry of
`tc.Status.PD.FailureMembers` has the pod's name as `PodName`, no entry of
`tc.Status.PD.Members` has the pod's name as `Name`, `tc.Status.PD.Synced`
is true, and the number of `Members` entries equals `tc.Spec.PD.Replicas`. -/
theorem pdFailover_iff (pod : Pod) (tc : TidbCluster) :
    pdFailover pod tc = true ↔
      (∃ f ∈ tc.StatusPD.FailureMembers, f.PodName = pod.Name) ∧
      (∀ m ∈ tc.StatusPD.Members, m.Name ≠ pod.Name) ∧
      tc.StatusPD.Synced = true ∧
      (tc.StatusPD.Members.length : Int) = tc.SpecPDReplicas := by
  unfold pdFailover
  dsimp only
  by_cases hf : tc.StatusPD.FailureMembers.any (fun failureMember =>
      failureMember.PodName == pod.Name) = true
  · have hf' : ∃ f ∈ tc.StatusPD.FailureMembers, f.PodName = pod.Name := by
      simpa [List.any_eq_true] using hf
    by_cases hm : tc.StatusPD.Members.any (fun member => member.Name == pod.Name) = true
    · have hm' : ∃ m ∈ tc.StatusPD.Members, m.Name = pod.Name := by
        simpa [List.any_eq_true] using hm
      obtain ⟨m, hmem, hname⟩ := hm'
      simp only [hf, hm, Bool.not_true, Bool.false_eq_true, if_false, if_true]
      constructor
      · intro hc
        exact absurd hc (by simp)
      · rintro ⟨_, hall, _⟩
        exact absurd hname (hall m hmem)
    · have hm' : ∀ m ∈ tc.StatusPD.Members, m.Name ≠ pod.Name := by
        simpa [List.any_eq_true] using hm
      simp only [hf, hm, Bool.not_true, Bool.false_eq_true, if_false]
      constructor
      · intro hc
        split_ifs at hc with hcond
        simp only [Bool.and_eq_true, beq_iff_eq] at hcond
        exact ⟨hf', hm', hcond.1, hcond.2⟩
      · rintro ⟨_, _, hsync, hlen⟩
        have hcond : (tc.StatusPD.Synced &&
            ((tc.StatusPD.Members.length : Int) == tc.SpecPDReplicas)) = true := by
          simp [hsync, hlen]
        rw [if_pos hcond]
  · have hf' : ¬ ∃ f ∈ tc.StatusPD.FailureMembers, f.PodName = pod.Name := by
      simpa [List.any_eq_true] using hf
    have hfalse : tc.StatusPD.FailureMembers.any (fun failureMember =>
        failureMember.PodName == pod.Name) = false := by simpa using hf
    simp only [hfalse, Bool.not_false, if_true]
    constructor
    · intro hc
      exact absurd hc (by simp)
    · rintro ⟨h1, _⟩
      exact absurd h1 hf'

end tests

end TidbOperator
